import Mathlib

/-!
Shallow embedding of the texture-fetch core of `indra/newview/lltexturefetch.cpp`
(worker state machine, HTTP resource semaphore, waiter release, UDP packet
reassembly, request creation), together with theorems settling the frozen
claims about that code.

Machine integers (`S32`, `U16`) are modelled as `Int`/`Nat`; the quantities
involved (packet counts, byte counts, semaphore counts) stay far below any
32-bit boundary on every input considered, so no wrap-around modelling is
needed.  Float priorities (`F32`) are modelled as `ℚ` (the comparisons the
code performs on them are order comparisons only).
-/

/-- `e_state` from `lltexturefetch.cpp` (values matter: the code compares
states numerically, e.g. `mState < DECODE_IMAGE`, `mState > CACHE_POST`). -/
inductive EState where
  | INVALID
  | INIT
  | LOAD_FROM_TEXTURE_CACHE
  | CACHE_POST
  | LOAD_FROM_NETWORK
  | LOAD_FROM_SIMULATOR
  | WAIT_HTTP_RESOURCE
  | WAIT_HTTP_RESOURCE2
  | SEND_HTTP_REQ
  | WAIT_HTTP_REQ
  | DECODE_IMAGE
  | DECODE_IMAGE_UPDATE
  | WRITE_TO_CACHE
  | WAIT_ON_WRITE
  | DONE
  deriving DecidableEq, Repr

/-- Numeric value of a state, matching the C++ enum order (INVALID = 0). -/
def EState.val : EState → Nat
  | .INVALID => 0
  | .INIT => 1
  | .LOAD_FROM_TEXTURE_CACHE => 2
  | .CACHE_POST => 3
  | .LOAD_FROM_NETWORK => 4
  | .LOAD_FROM_SIMULATOR => 5
  | .WAIT_HTTP_RESOURCE => 6
  | .WAIT_HTTP_RESOURCE2 => 7
  | .SEND_HTTP_REQ => 8
  | .WAIT_HTTP_REQ => 9
  | .DECODE_IMAGE => 10
  | .DECODE_IMAGE_UPDATE => 11
  | .WRITE_TO_CACHE => 12
  | .WAIT_ON_WRITE => 13
  | .DONE => 14

/-- `FTType` of a fetch request (defined outside this file; only the
constructors the fetch code distinguishes are needed). -/
inductive FTType where
  | FTT_DEFAULT
  | FTT_SERVER_BAKE
  | FTT_HOST_BAKE
  | FTT_MAP_TILE
  | FTT_LOCAL_FILE
  deriving DecidableEq, Repr

/-! ## HTTP resource semaphore (C1)

`LLTextureFetchWorker::acquireHttpSemaphore` / `releaseHttpSemaphore`
manipulate the fetcher-wide counter `mHttpSemaphore` together with the
caller's own `mHttpHasResource` flag.  `acquireHttpSemaphore` asserts the
caller does not already hold the resource and `releaseHttpSemaphore`
asserts the caller does, so along any assertion-respecting call sequence
the number of outstanding holders (workers whose `mHttpHasResource` is
true) is tracked alongside the counter; a `release` with no outstanding
holder is an assertion failure, modelled as `none`. -/

/-- One call in a sequence of semaphore operations. -/
inductive SemOp where
  | acq
  | rel
  deriving DecidableEq, Repr

/-- Semaphore state: the counter `mHttpSemaphore` plus the number of workers
whose `mHttpHasResource` flag is set. -/
structure SemSt where
  sem : Int
  holders : Nat
  deriving DecidableEq, Repr

/-- Initial semaphore state (`mHttpSemaphore = 0`, no holders). -/
def semInit : SemSt := ⟨0, 0⟩

/-- One semaphore call.  `acq` embeds `acquireHttpSemaphore` (fails iff
`mHttpSemaphore >= mHttpHighWater`, otherwise sets the caller's flag and
increments); `rel` embeds `releaseHttpSemaphore` (requires the caller to
hold the resource — `llassert(mHttpHasResource)` — then clears the flag
and decrements).  `none` is an assertion failure. -/
def semStep (hw : Int) (s : SemSt) : SemOp → Option (SemSt × Bool)
  | .acq =>
      if s.sem ≥ hw then some (s, false)
      else some (⟨s.sem + 1, s.holders + 1⟩, true)
  | .rel =>
      match s.holders with
      | 0 => none
      | h + 1 => some (⟨s.sem - 1, h⟩, false)

/-- Run a sequence of semaphore calls from a given state. -/
def semRun (hw : Int) (s : SemSt) : List SemOp → Option SemSt
  | [] => some s
  | op :: ops =>
      match semStep hw s op with
      | none => none
      | some (s', _) => semRun hw s' ops

/-- Invariant along every assertion-respecting run: the counter equals the
number of holders (hence is never negative). -/
lemma semRun_inv_aux (hw : Int) :
    ∀ (ops : List SemOp) (t s : SemSt), t.sem = t.holders →
      semRun hw t ops = some s → s.sem = s.holders := by
  intro ops
  induction ops with
  | nil =>
      intro t s ht hrun
      simp [semRun] at hrun
      simpa [← hrun] using ht
  | cons op ops ih =>
      intro t s ht hrun
      cases op with
      | acq =>
          by_cases hge : t.sem ≥ hw
          · exact ih t s ht (by simpa [semRun, semStep, hge] using hrun)
          · refine ih ⟨t.sem + 1, t.holders + 1⟩ s (by simp [ht]) ?_
            simpa [semRun, semStep, hge] using hrun
      | rel =>
          cases hh : t.holders with
          | zero => simp [semRun, semStep, hh] at hrun
          | succ k =>
              refine ih ⟨t.sem - 1, k⟩ s ?_ ?_
              · have : t.sem = (k : Int) + 1 := by
                  rw [ht, hh]; push_cast; ring
                simp [this]
              · simpa [semRun, semStep, hh] using hrun

/-- The invariant instantiated at the initial state. -/
lemma semRun_inv (hw : Int) (ops : List SemOp) (s : SemSt)
    (h : semRun hw semInit ops = some s) : s.sem = s.holders :=
  semRun_inv_aux hw ops semInit s rfl h

/-- C1.  Starting from count 0, along any assertion-respecting sequence of
`acquireHttpSemaphore`/`releaseHttpSemaphore` calls: an acquire succeeds and
increments the count exactly when the count is strictly below the high-water
mark and otherwise fails leaving the count unchanged; a release decrements
the count; the count never goes negative, and at the moment an acquire
succeeds the count does not exceed the high-water mark. -/
theorem httpSemaphore_conservation (hw : Int) (ops : List SemOp) (s : SemSt)
    (h : semRun hw semInit ops = some s) :
    0 ≤ s.sem
    ∧ (s.sem < hw → semStep hw s .acq = some (⟨s.sem + 1, s.holders + 1⟩, true))
    ∧ (¬ s.sem < hw → semStep hw s .acq = some (s, false))
    ∧ (∀ s' b, semStep hw s .acq = some (s', b) → b = true → s'.sem = s.sem + 1 ∧ s'.sem ≤ hw)
    ∧ (∀ s' b, semStep hw s .acq = some (s', b) → b = false → s' = s)
    ∧ (∀ s' b, semStep hw s .rel = some (s', b) → s'.sem = s.sem - 1 ∧ 0 ≤ s'.sem) := by
  have hinv := semRun_inv hw ops s h
  refine ⟨by simp [hinv], ?_, ?_, ?_, ?_, ?_⟩
  · intro hlt
    simp [semStep, not_le.mpr hlt]
  · intro hge
    simp [semStep, not_lt.mp hge]
  · intro s' b hstep hb
    subst hb
    by_cases hge : s.sem ≥ hw
    · simp [semStep, hge] at hstep
    · simp [semStep, hge] at hstep
      subst hstep
      have : s.sem < hw := lt_of_not_ge hge
      constructor
      · rfl
      · simpa using this
  · intro s' b hstep hb
    subst hb
    by_cases hge : s.sem ≥ hw
    · simp [semStep, hge] at hstep
      exact hstep.symm
    · simp [semStep, hge] at hstep
  · intro s' b hstep
    cases hh : s.holders with
    | zero => simp [semStep, hh] at hstep
    | succ k =>
        simp [semStep, hh] at hstep
        obtain ⟨hstep, -⟩ := hstep
        subst hstep
        have hs : s.sem = (k : Int) + 1 := by rw [hinv, hh]; push_cast; ring
        constructor
        · rfl
        · simp [hs]

/-- Witness for C1 at a concrete run: high-water 2, operations
acquire-acquire-acquire-release (the third acquire fails at the mark). -/
theorem httpSemaphore_conservation_witness :
    ∃ s, semRun 2 semInit [SemOp.acq, SemOp.acq, SemOp.acq, SemOp.rel] = some s
      ∧ 0 ≤ s.sem ∧ s.sem = 1 := by
  refine ⟨⟨1, 1⟩, by decide, ?_, rfl⟩
  have h := httpSemaphore_conservation 2 [SemOp.acq, SemOp.acq, SemOp.acq, SemOp.rel]
    ⟨1, 1⟩ (by decide)
  exact h.1

/-! ## Worker data model

Fields of `LLTextureFetchWorker` used by the modelled operations.  UUIDs and
hosts are opaque identities, modelled as `Nat`.  Timers, logging, the work
mutex and the scheduler-facing work-priority bits are not part of the data
model (they carry no data the modelled functions branch on, except where a
flag such as `loaded` records a callback having fired). -/

/-- HTTP status classification as the fetch code distinguishes it
(404, 503, 416, success, any other failure). -/
inductive HStatus where
  | ok
  | partialContent
  | notFound
  | serviceUnavail
  | rangeNotSat
  | otherError
  deriving DecidableEq, Repr

/-- Whether the status converts to `true` in `if (status)` (`LLCore`
success statuses: 2xx; here plain 200 success and 206 partial content). -/
def HStatus.isGood : HStatus → Bool
  | .ok => true
  | .partialContent => true
  | _ => false

/-- `mWriteToCacheState`. -/
inductive WriteState where
  | CAN_WRITE
  | SHOULD_WRITE
  | NOT_WRITE
  deriving DecidableEq, Repr

/-- `e_request_state` (`mSentRequest`). -/
inductive SentState where
  | UNSENT
  | QUEUED
  | SENT_SIM
  deriving DecidableEq, Repr

/-- The part of `LLImageFormatted` the fetch code reads and writes:
the byte buffer (`getData`/`getDataSize`/`setData`) and the discard level. -/
structure FormattedImage where
  data : List Nat
  discardLevel : Int
  deriving DecidableEq, Repr

/-- `MAX_IMG_PACKET_SIZE` (fixed UDP image-packet payload size; the constant
is defined in the message-system headers outside this file). -/
def MAX_IMG_PACKET_SIZE : Nat := 1000

/-- `FIRST_PACKET_SIZE` (payload bytes carried by the image header packet;
defined in the message-system headers outside this file). -/
def FIRST_PACKET_SIZE : Nat := 600

/-- `LLTextureFetchWorker` state. -/
structure Worker where
  id : Nat
  host : Nat
  fttype : FTType
  state : EState
  prevState : EState
  url : String
  imagePriority : ℚ
  canUseHTTP : Bool
  canUseNET : Bool
  httpHasResource : Bool
  formattedImage : Option FormattedImage
  desiredDiscard : Int
  desiredSize : Int
  requestedDiscard : Int
  requestedSize : Int
  requestedOffset : Int
  loadedDiscard : Int
  decodedDiscard : Int
  fileSize : Int
  haveAllData : Bool
  loaded : Bool
  httpBufferArray : Option (List Nat)
  httpReplySize : Int
  httpReplyOffset : Int
  getStatus : HStatus
  httpActive : Bool
  writeToCacheState : WriteState
  sentRequest : SentState
  packets : List (Option (List Nat))
  totalPackets : Int
  firstPacket : Int
  lastPacket : Int
  imageCodec : Nat
  needsAux : Bool
  activeCount : Nat
  deriving DecidableEq, Repr

/-- `setState`: records the previous state and installs the new one. -/
def Worker.setState (w : Worker) (s : EState) : Worker :=
  { w with prevState := w.state, state := s }

/-- `mFormattedImage->getDataSize()` when the image is known non-null,
0 when null (call sites guard with `notNull()`). -/
def Worker.curDataSize (w : Worker) : Nat :=
  (w.formattedImage.map (fun fi => fi.data.length)).getD 0

/-! ## UDP packet reassembly (C7, C8, C10) -/

/-- The `while` loop at the end of `insertPacket`: advance `mLastPacket`
across consecutively filled slots.  `fuel` bounds the recursion by the
array length (the loop cannot run longer). -/
def advanceLast (pkts : List (Option (List Nat))) : Int → Nat → Int
  | l, 0 => l
  | l, Nat.succ fuel =>
      if l + 1 < (pkts.length : Int) ∧ (pkts.getD (l + 1).toNat none).isSome
      then advanceLast pkts (l + 1) fuel
      else l

/-- `LLTextureFetchWorker::insertPacket` (timer reset omitted).  A packet is
its byte list; its size is the list length.  Returns the `bool` result and
the updated worker. -/
def insertPacket (w : Worker) (index : Nat) (bytes : List Nat) : Bool × Worker :=
  if (index : Int) ≥ w.totalPackets then (false, w)
  else if (index : Int) > 0 ∧ (index : Int) < w.totalPackets - 1
          ∧ bytes.length ≠ MAX_IMG_PACKET_SIZE then (false, w)
  else
    let slots :=
      if index ≥ w.packets.length
      then some (w.packets ++ List.replicate (index + 1 - w.packets.length) none)
      else if (w.packets.getD index none).isSome then none
      else some w.packets
    match slots with
    | none => (false, w)
    | some pkts0 =>
        let pkts := pkts0.set index (some bytes)
        (true, { w with packets := pkts,
                        lastPacket := advanceLast pkts w.lastPacket pkts.length })

/-- The packets `mPackets[mFirstPacket .. mLastPacket]` in order (the loops
in `processSimulatorPackets` read exactly these slots, all non-null by the
contiguity invariant; a null slot reads as the empty list). -/
def Worker.packetRange (w : Worker) : List (List Nat) :=
  (List.range (w.lastPacket + 1 - w.firstPacket).toNat).map
    (fun k => ((w.packets.getD (w.firstPacket.toNat + k) none).getD []))

/-- `LLTextureFetchWorker::processSimulatorPackets`.  Freshly allocated
buffer bytes that the code leaves unwritten (possible only when
`cur_size > 0 && mFirstPacket == 0`) are modelled as zero. -/
def processSimulatorPackets (w : Worker) : Bool × Worker :=
  if w.lastPacket ≥ w.firstPacket then
    let curData := (w.formattedImage.map (fun fi => fi.data)).getD []
    let packetBytes := ((w.packetRange).map (fun p => p.length)).sum
    let bufferSize := curData.length + packetBytes
    let haveAll := w.lastPacket ≥ w.totalPackets - 1
    if w.requestedSize ≤ 0 then
      -- received a packet but never requested anything: report done
      (true, w)
    else if (bufferSize : Int) ≥ w.requestedSize ∨ haveAll then
      let w1 := if haveAll then { w with haveAllData := true } else w
      let w2 :=
        if (bufferSize : Int) > (curData.length : Int) then
          let buffer :=
            if curData.length > 0 ∧ w.firstPacket > 0
            then curData ++ (w.packetRange).flatten
            else (w.packetRange).flatten
                   ++ List.replicate (bufferSize - packetBytes) 0
          let dl := (w.formattedImage.map (fun fi => fi.discardLevel)).getD (-1)
          { w1 with formattedImage := some (FormattedImage.mk buffer dl) }
        else w1
      (true, { w2 with loadedDiscard := w.requestedDiscard })
    else (false, w)
  else (false, w)

/-- Fetcher-side bookkeeping touched by the UDP receive paths. -/
structure NetFetcher where
  packetCount : Nat
  badPacketCount : Nat
  cancelQueue : List (Nat × Nat)
  networkQueue : List Nat
  deriving DecidableEq, Repr

/-- `LLTextureFetch::removeFromNetworkQueue`. -/
def removeFromNetworkQueue (f : NetFetcher) (w : Worker) (cancel : Bool) : NetFetcher :=
  let erased := w.id ∈ f.networkQueue
  let f1 := { f with networkQueue := f.networkQueue.filter (fun x => x ≠ w.id) }
  if cancel ∧ erased
  then { f1 with cancelQueue := (w.host, w.id) :: f1.cancelQueue }
  else f1

/-- `LLTextureFetch::receiveImagePacket` (stats recorder and download logging
omitted — they branch on nothing the result depends on).  `workerOpt` is the
result of the `getWorker(id)` lookup. -/
def receiveImagePacket (f : NetFetcher) (workerOpt : Option Worker)
    (host : Nat) (packet_num : Nat) (bytes : List Nat) :
    Bool × NetFetcher × Option Worker :=
  let f0 := { f with packetCount := f.packetCount + 1 }
  let bad (w : Option Worker) (id : Nat) : Bool × NetFetcher × Option Worker :=
    (false,
     { f0 with badPacketCount := f0.badPacketCount + 1,
               cancelQueue := (host, id) :: f0.cancelQueue },
     w)
  match workerOpt with
  | none => bad none 0
  | some w =>
      if w.lastPacket = -1 then bad (some w) w.id
      else if bytes.length = 0 then bad (some w) w.id
      else
        let (res, w1) := insertPacket w packet_num bytes
        if w1.state = EState.LOAD_FROM_SIMULATOR ∨ w1.state = EState.LOAD_FROM_NETWORK then
          (res, f0, some (w1.setState EState.LOAD_FROM_SIMULATOR))
        else
          (res, removeFromNetworkQueue f0 w1 true, some w1)

/-- Worker-side effect of `LLTextureFetch::receiveImageHeader` once the
validity checks have passed: install codec, total packet count and file
size, insert packet 0, raise priority (not modelled) and move to
`LOAD_FROM_SIMULATOR`. -/
def receiveImageHeaderWorker (w : Worker) (codec : Nat) (packets : Nat)
    (totalbytes : Nat) (bytes : List Nat) : Bool × Worker :=
  let w1 := { w with imageCodec := codec, totalPackets := (packets : Int),
                     fileSize := (totalbytes : Int) }
  let (res, w2) := insertPacket w1 0 bytes
  (res, w2.setState EState.LOAD_FROM_SIMULATOR)

/-! ## UDP reassembly theorems -/

/-- A worker as the constructor builds it for a UDP-bound request that has
been queued to a simulator: state `LOAD_FROM_NETWORK`, request sent
(`SENT_SIM`), a fresh (empty) formatted image, no packets yet. -/
def udpWorker : Worker :=
  { id := 1, host := 7, fttype := FTType.FTT_DEFAULT,
    state := EState.LOAD_FROM_NETWORK, prevState := EState.INIT, url := "",
    imagePriority := 100, canUseHTTP := true, canUseNET := true,
    httpHasResource := false, formattedImage := some (FormattedImage.mk [] (-1)),
    desiredDiscard := 0, desiredSize := 3000, requestedDiscard := 0,
    requestedSize := 3000, requestedOffset := 0, loadedDiscard := -1,
    decodedDiscard := -1, fileSize := 0, haveAllData := false, loaded := false,
    httpBufferArray := none, httpReplySize := 0, httpReplyOffset := 0,
    getStatus := HStatus.ok, httpActive := false,
    writeToCacheState := WriteState.CAN_WRITE, sentRequest := SentState.SENT_SIM,
    packets := [], totalPackets := 0, firstPacket := 0, lastPacket := -1,
    imageCodec := 0, needsAux := false, activeCount := 1 }

/-- The worker of a 3-packet image after its header has been received
(header packet carries `b0`). -/
def udpAfterHeader (b0 : List Nat) : Worker :=
  (receiveImageHeaderWorker udpWorker 2 3 2600 b0).2

/-- C7.  For a 3-packet image whose header has been received, delivering the
remaining packets as [2,1] gives the same packet array, the same
last-contiguous pointer and the same `processSimulatorPackets` result as
delivering them as [1,2]; and after the out-of-order delivery of packet 2
alone, the packet is buffered (slot 2 filled) but the last-contiguous
pointer still sits at 0. -/
theorem udp_reassembly_order_independent (b0 b1 b2 : List Nat)
    (h1 : b1.length = MAX_IMG_PACKET_SIZE) :
    (insertPacket (insertPacket (udpAfterHeader b0) 2 b2).2 1 b1).2.packets
      = (insertPacket (insertPacket (udpAfterHeader b0) 1 b1).2 2 b2).2.packets
    ∧ (insertPacket (insertPacket (udpAfterHeader b0) 2 b2).2 1 b1).2.lastPacket
      = (insertPacket (insertPacket (udpAfterHeader b0) 1 b1).2 2 b2).2.lastPacket
    ∧ processSimulatorPackets (insertPacket (insertPacket (udpAfterHeader b0) 2 b2).2 1 b1).2
      = processSimulatorPackets (insertPacket (insertPacket (udpAfterHeader b0) 1 b1).2 2 b2).2
    ∧ (insertPacket (udpAfterHeader b0) 2 b2).2.lastPacket = 0
    ∧ (insertPacket (udpAfterHeader b0) 2 b2).2.packets.getD 2 none = some b2 := by
  have hA : (insertPacket (insertPacket (udpAfterHeader b0) 2 b2).2 1 b1).2
      = (insertPacket (insertPacket (udpAfterHeader b0) 1 b1).2 2 b2).2 := by
    simp [udpAfterHeader, receiveImageHeaderWorker, insertPacket, advanceLast,
          udpWorker, Worker.setState, h1, MAX_IMG_PACKET_SIZE]
  refine ⟨by rw [hA], by rw [hA], by rw [hA], ?_, ?_⟩
  · simp [udpAfterHeader, receiveImageHeaderWorker, insertPacket, advanceLast,
          udpWorker, Worker.setState]
  · simp [udpAfterHeader, receiveImageHeaderWorker, insertPacket, advanceLast,
          udpWorker, Worker.setState]

/-- Witness for C7 at concrete packet contents. -/
theorem udp_reassembly_order_independent_witness :
    (List.replicate MAX_IMG_PACKET_SIZE 5).length = MAX_IMG_PACKET_SIZE
    ∧ (insertPacket (insertPacket (udpAfterHeader [1, 2]) 2 [9]).2 1
        (List.replicate MAX_IMG_PACKET_SIZE 5)).2.packets
      = (insertPacket (insertPacket (udpAfterHeader [1, 2]) 1
          (List.replicate MAX_IMG_PACKET_SIZE 5)).2 2 [9]).2.packets :=
  ⟨by simp, (udp_reassembly_order_independent [1, 2]
      (List.replicate MAX_IMG_PACKET_SIZE 5) [9] (by simp)).1⟩

/-- A concrete fetcher state for the UDP counterexamples. -/
def netF0 : NetFetcher :=
  { packetCount := 0, badPacketCount := 0, cancelQueue := [], networkQueue := [] }

/-- A concrete worker that has received its 3-packet header. -/
def udpWorkerHdr : Worker := udpAfterHeader [1, 2]

/-- Counterexample to C8 as stated: delivering packet index 5 (≥ totalPackets
= 3) to a live worker with a received header is rejected (returns false) but
the fetcher's bad-packet counter is NOT incremented. -/
theorem receiveImagePacket_overflow_not_counted :
    (receiveImagePacket netF0 (some udpWorkerHdr) 7 5 [3]).1 = false
    ∧ (receiveImagePacket netF0 (some udpWorkerHdr) 7 5 [3]).2.1.badPacketCount
        = netF0.badPacketCount := by
  constructor <;> rfl

/-- C8 (amended).  `insertPacket` rejects — returning false with the packet
array and last-contiguous pointer unchanged — an index ≥ totalPackets, a
middle packet of the wrong size, and a duplicate index; `receiveImagePacket`
with index ≥ totalPackets (live worker, header received, nonzero size)
returns false but does not increment the bad-packet counter (that counter is
incremented only for a missing worker, a missing header, or zero data
size). -/
theorem insertPacket_rejections (w : Worker) (f : NetFetcher)
    (index : Nat) (bytes : List Nat) (host : Nat) :
    ((index : Int) ≥ w.totalPackets → insertPacket w index bytes = (false, w))
    ∧ (0 < index → (index : Int) < w.totalPackets - 1 →
        bytes.length ≠ MAX_IMG_PACKET_SIZE → insertPacket w index bytes = (false, w))
    ∧ ((index : Int) < w.totalPackets →
        ((index : Int) > 0 ∧ (index : Int) < w.totalPackets - 1 →
          bytes.length = MAX_IMG_PACKET_SIZE) →
        index < w.packets.length → (w.packets.getD index none).isSome →
        insertPacket w index bytes = (false, w))
    ∧ (w.lastPacket ≠ -1 → bytes.length ≠ 0 → (index : Int) ≥ w.totalPackets →
        (receiveImagePacket f (some w) host index bytes).1 = false
        ∧ (receiveImagePacket f (some w) host index bytes).2.1.badPacketCount
            = f.badPacketCount) := by
  refine ⟨?_, ?_, ?_, ?_⟩
  · intro hge
    simp [insertPacket, hge]
  · intro hpos hlt hsz
    have hnge : ¬ (index : Int) ≥ w.totalPackets := by omega
    have h0 : (index : Int) > 0 := by exact_mod_cast hpos
    simp [insertPacket, hnge, h0, hlt, hsz]
  · intro hlt hmid hidx hdup
    have hnge : ¬ (index : Int) ≥ w.totalPackets := not_le.mpr hlt
    have hcond : ¬ ((index : Int) > 0 ∧ (index : Int) < w.totalPackets - 1
        ∧ bytes.length ≠ MAX_IMG_PACKET_SIZE) := by
      rintro ⟨hp, hl, hs⟩
      exact hs (hmid ⟨hp, hl⟩)
    simp [List.getD] at hdup
    simp [insertPacket, hnge, hcond, not_le.mpr hidx, hdup]
  · intro hhdr hsz hge
    have hins : insertPacket w index bytes = (false, w) := by
      simp [insertPacket, hge]
    have hne : bytes ≠ [] := by
      intro hb
      exact hsz (by simp [hb])
    constructor <;>
      · simp [receiveImagePacket, hhdr, hne, hins]
        try split
        all_goals simp [removeFromNetworkQueue]
        all_goals try split
        all_goals rfl

/-- Witness for C8 (amended) at concrete inputs: index 5 ≥ totalPackets 3 is
rejected by `insertPacket`, and the delivery is rejected without touching
the bad-packet counter. -/
theorem insertPacket_rejections_witness :
    insertPacket udpWorkerHdr 5 [3] = (false, udpWorkerHdr)
    ∧ (receiveImagePacket netF0 (some udpWorkerHdr) 7 5 [3]).1 = false
    ∧ (receiveImagePacket netF0 (some udpWorkerHdr) 7 5 [3]).2.1.badPacketCount
        = netF0.badPacketCount := by
  have h := insertPacket_rejections udpWorkerHdr netF0 5 [3] 7
  have h4 := h.2.2.2 (by decide) (by decide) (by decide)
  exact ⟨h.1 (by decide), h4.1, h4.2⟩

/-- C10.  `receiveImagePacket` for a live worker that has not yet received
its header (last-contiguous index still -1), or with a zero data size, does
not insert the packet: it returns false, increments the fetcher's bad-packet
counter and queues a cancellation for that id to the sending host. -/
theorem receiveImagePacket_preheader_rejected (f : NetFetcher) (w : Worker)
    (host packet_num : Nat) (bytes : List Nat)
    (h : w.lastPacket = -1 ∨ bytes.length = 0) :
    receiveImagePacket f (some w) host packet_num bytes =
      (false,
       { f with packetCount := f.packetCount + 1,
                badPacketCount := f.badPacketCount + 1,
                cancelQueue := (host, w.id) :: f.cancelQueue },
       some w) := by
  rcases h with h | h
  · simp [receiveImagePacket, h]
  · have hb : bytes = [] := List.length_eq_zero.mp h
    subst hb
    by_cases hl : w.lastPacket = -1
    · simp [receiveImagePacket, hl]
    · simp [receiveImagePacket, hl]

/-- Witness for C10: a worker fresh from the constructor
(`mLastPacket = -1`) receiving packet 1. -/
theorem receiveImagePacket_preheader_rejected_witness :
    receiveImagePacket netF0 (some udpWorker) 7 1 [4, 5] =
      (false,
       { netF0 with packetCount := netF0.packetCount + 1,
                    badPacketCount := netF0.badPacketCount + 1,
                    cancelQueue := (7, udpWorker.id) :: netF0.cancelQueue },
       some udpWorker) :=
  receiveImagePacket_preheader_rejected netF0 udpWorker 7 1 [4, 5] (Or.inl (by decide))

/-! ## HTTP waiter release (C2)

`LLTextureFetch::releaseHttpWaiters` snapshots the waiter ids, resolves
them to live workers (dropping stale ids), partially sorts the resulting
vector with `LLTextureFetchWorker::Compare` so that its first `needed`
positions hold the smallest `needed` elements in comparator order (the
`std::partial_sort` guarantee; the order of the remaining positions is
unspecified), then walks the vector acquiring the semaphore for each
worker still parked in `WAIT_HTTP_RESOURCE2`, stopping when an acquire
fails.  The arranged vector is therefore any list `arranged` that is a
permutation of the live snapshot whose first `needed` entries agree with
the fully sorted list. -/

/-- `LLTextureFetchWorker::Compare`: lhs sorts before rhs iff it has the
strictly greater image priority, ties broken by worker identity (the
source compares the worker pointers; identity is the `id` field here). -/
def workerCompare (l r : Worker) : Bool :=
  if l.imagePriority > r.imagePriority then true
  else if l.imagePriority < r.imagePriority then false
  else l.id < r.id

/-- `workerCompare` as a relation, for sorting. -/
def waiterLt (l r : Worker) : Prop := workerCompare l r = true

instance : DecidableRel waiterLt := fun l r => by
  unfold waiterLt
  infer_instance

/-- The fully sorted waiter list (highest priority first). -/
def sortWaiters (l : List Worker) : List Worker := List.insertionSort waiterLt l

/-- Effect of releasing one parked worker: acquire the semaphore
(`mHttpHasResource := true`) and move to `SEND_HTTP_REQ`. -/
def markReleased (w : Worker) : Worker :=
  Worker.setState { w with httpHasResource := true } EState.SEND_HTTP_REQ

/-- The release loop of `releaseHttpWaiters` (lines 3450-3478): skip and
drop workers not in `WAIT_HTTP_RESOURCE2`; otherwise acquire the semaphore
(stop when it is at the high-water mark) and transition the worker to
`SEND_HTTP_REQ`.  Returns the released workers in release order. -/
def releaseLoop (hw : Int) : Int → List Worker → List Worker
  | _, [] => []
  | sem, w :: rest =>
      if w.state ≠ EState.WAIT_HTTP_RESOURCE2 then releaseLoop hw sem rest
      else if sem ≥ hw then []
      else markReleased w :: releaseLoop hw (sem + 1) rest

/-- `LLTextureFetch::releaseHttpWaiters` over an arranged waiter vector:
no-op above the low-water mark (hysteresis), no-op when `needed ≤ 0` or no
waiters, otherwise run the release loop. -/
def releaseHttpWaiters (hw lw sem : Int) (arranged : List Worker) : List Worker :=
  if sem ≥ lw then []
  else if hw - sem ≤ 0 then []
  else if arranged = [] then []
  else releaseLoop hw sem arranged

/-- When every worker in the vector is parked, the loop releases exactly
the first `high-water − semaphore` of them. -/
lemma releaseLoop_all_parked (hw : Int) :
    ∀ (l : List Worker), (∀ w ∈ l, w.state = EState.WAIT_HTTP_RESOURCE2) →
      ∀ sem : Int, releaseLoop hw sem l = (l.take (hw - sem).toNat).map markReleased := by
  intro l
  induction l with
  | nil => intro _ sem; simp [releaseLoop]
  | cons w rest ih =>
      intro hall sem
      have hw1 : w.state = EState.WAIT_HTTP_RESOURCE2 := hall w (by simp)
      have hrest : ∀ x ∈ rest, x.state = EState.WAIT_HTTP_RESOURCE2 :=
        fun x hx => hall x (by simp [hx])
      by_cases hge : sem ≥ hw
      · have h0 : (hw - sem).toNat = 0 := by omega
        simp [releaseLoop, hw1, hge, h0]
      · have h1 : (hw - sem).toNat = (hw - (sem + 1)).toNat + 1 := by omega
        simp [releaseLoop, hw1, hge, h1, ih hrest (sem + 1)]

/-- C2.  With the active HTTP count below the low-water mark and
`needed = high-water − count > 0` slots free, `releaseHttpWaiters` over any
partial-sort arrangement of a snapshot of parked waiters releases exactly
the `needed` highest-priority waiters (descending priority, ties by worker
identity), at most `needed` in total, transitioning each released worker
from `WAIT_HTTP_RESOURCE2` to `SEND_HTTP_REQ`. -/
theorem releaseHttpWaiters_priority_order (hw lw sem : Int)
    (snapshot arranged : List Worker)
    (hsem : sem < lw) (hneed : 0 < hw - sem)
    (hall : ∀ w ∈ snapshot, w.state = EState.WAIT_HTTP_RESOURCE2)
    (hperm : arranged.Perm snapshot)
    (hpsorted : arranged.take (hw - sem).toNat
        = (sortWaiters snapshot).take (hw - sem).toNat) :
    releaseHttpWaiters hw lw sem arranged
      = ((sortWaiters snapshot).take (hw - sem).toNat).map markReleased
    ∧ (releaseHttpWaiters hw lw sem arranged).length ≤ (hw - sem).toNat
    ∧ ∀ w ∈ releaseHttpWaiters hw lw sem arranged,
        w.state = EState.SEND_HTTP_REQ ∧ w.prevState = EState.WAIT_HTTP_RESOURCE2 := by
  have hallArr : ∀ w ∈ arranged, w.state = EState.WAIT_HTTP_RESOURCE2 :=
    fun w hwmem => hall w (hperm.mem_iff.mp hwmem)
  have hmain : releaseHttpWaiters hw lw sem arranged
      = ((sortWaiters snapshot).take (hw - sem).toNat).map markReleased := by
    by_cases hnil : arranged = []
    · subst hnil
      have hsnap : snapshot = [] := hperm.symm.eq_nil
      simp [releaseHttpWaiters, sortWaiters, hsnap]
    · rw [releaseHttpWaiters, if_neg (not_le.mpr hsem), if_neg (not_le.mpr hneed),
          if_neg hnil, releaseLoop_all_parked hw arranged hallArr sem, hpsorted]
  refine ⟨hmain, ?_, ?_⟩
  · rw [hmain]
    simp [List.length_take]
  · intro w hwmem
    rw [hmain] at hwmem
    simp only [List.mem_map] at hwmem
    obtain ⟨x, hx, hxw⟩ := hwmem
    have hxsnap : x ∈ snapshot := by
      have hxsort : x ∈ sortWaiters snapshot := List.mem_of_mem_take hx
      exact ((List.perm_insertionSort waiterLt snapshot).mem_iff).mp hxsort
    have hxstate := hall x hxsnap
    subst hxw
    exact ⟨rfl, by simp [markReleased, Worker.setState, hxstate]⟩

/-- The spec's concrete instance: priority-10 waiter W1, priority-5 waiter
W2, both parked. -/
def waiterW1 : Worker :=
  { udpWorker with id := 1, imagePriority := 10, state := EState.WAIT_HTTP_RESOURCE2 }

/-- Priority-5 parked waiter. -/
def waiterW2 : Worker :=
  { udpWorker with id := 2, imagePriority := 5, state := EState.WAIT_HTTP_RESOURCE2 }

/-- Witness for C2: one free slot (high-water 1, semaphore 0, below
low-water 1); of the parked waiters W1 (priority 10) and W2 (priority 5),
exactly W1 is released. -/
theorem releaseHttpWaiters_priority_order_witness :
    releaseHttpWaiters 1 1 0 [waiterW1, waiterW2] = [markReleased waiterW1]
    ∧ (markReleased waiterW1).state = EState.SEND_HTTP_REQ
    ∧ (markReleased waiterW1).id = 1 ∧ waiterW2.id = 2 := by
  have h := releaseHttpWaiters_priority_order 1 1 0 [waiterW2, waiterW1]
    [waiterW1, waiterW2] (by decide) (by decide) (by decide)
    (by decide) (by decide)
  refine ⟨?_, ?_, by decide, by decide⟩
  · rw [h.1]
    decide
  · exact ((h.2.2 (markReleased waiterW1)) (by rw [h.1]; decide)).1

/-! ## doWork: HTTP states (C3, C4, C5, C6)

Embedding of `LLTextureFetchWorker::doWork` restricted to the guard checks
at its top (lines 1049-1075) and the HTTP states `WAIT_HTTP_RESOURCE`,
`WAIT_HTTP_RESOURCE2`, `SEND_HTTP_REQ` and `WAIT_HTTP_REQ` (lines
1401-1739), plus the HTTP completion callback (`onCompleted` /
`callbackHttpGet`).  States before the HTTP gate fall outside the model and
are reported as `fallthrough`.  External collaborators appear as
environment flags: the validity of the transport handle, allocation
success, and `LLImageFormatted::updateData`'s result.  Debug-only
`llassert`s are compiled out in release builds and are not modelled;
`llassert_always` is modelled as `assertFail`. -/

/-- `F_ALMOST_ZERO` (0.0001f, from the math headers outside this file). -/
def F_ALMOST_ZERO : ℚ := mkRat 1 10000

/-- Environment of one `doWork` step. -/
structure HttpEnv where
  quitting : Bool
  deleteRequested : Bool
  debugPause : Bool
  disableRangeReq : Bool
  handleValid : Bool
  allocOk : Bool
  updateDataOk : Bool
  deriving DecidableEq, Repr

/-- The HTTP request dispatched by `SEND_HTTP_REQ`, if any:
`requestGetByteRange(offset, length)` when ranged, plain `requestGet`
otherwise (the length passed on the wire is zeroed above
`HTTP_REQUESTS_RANGE_END_MAX` = 20000000). -/
structure HttpReqRec where
  ranged : Bool
  offset : Int
  length : Int
  deriving DecidableEq, Repr

/-- How the modelled `doWork` fragment ended. -/
inductive StepOut where
  | ret : Bool → StepOut
  | fallthrough : StepOut
  | assertFail : StepOut
  deriving DecidableEq, Repr

/-- Result of one modelled step: the worker, the fetcher's semaphore
count, the waiter count, the outcome, and the request dispatched. -/
structure HttpStepRes where
  worker : Worker
  sem : Int
  waiters : Nat
  out : StepOut
  issued : Option HttpReqRec
  deriving DecidableEq, Repr

/-- Worker-side effect of `releaseHttpSemaphore` (the counter decrement is
accounted in the `sem` component of the step result). -/
def relW (w : Worker) : Worker := { w with httpHasResource := false }

/-- `LLTextureFetchWorker::resetFormattedData`. -/
def resetFormattedData (w : Worker) : Worker :=
  { w with httpBufferArray := none,
           formattedImage := w.formattedImage.map (fun fi => { fi with data := [] }),
           httpReplySize := 0, httpReplyOffset := 0, haveAllData := false }

/-- Tail of the failure classification in `WAIT_HTTP_REQ` (lines
1586-1624), reached when the failure is not a 404 with a terminal or UDP
fallback: a 416 is accepted as "have all data", the URL is cleared except
for server bakes, then any available data is decoded, else the request
fails hard to `DONE`. -/
def waitHttpFail (sem : Int) (waiters : Nat) (w : Worker) (cur : Int) : HttpStepRes :=
  let w1 := if w.getStatus = HStatus.rangeNotSat
            then { w with haveAllData := true } else w
  let w2 := if w.fttype ≠ FTType.FTT_SERVER_BAKE then { w1 with url := "" } else w1
  if cur > 0 then
    -- use available data
    let dl := (w.formattedImage.map (fun fi => fi.discardLevel)).getD (-1)
    ⟨relW (({ w2 with loadedDiscard := dl }).setState EState.DECODE_IMAGE),
      sem - 1, waiters, StepOut.ret false, none⟩
  else
    ⟨relW ((resetFormattedData w2).setState EState.DONE),
      sem - 1, waiters, StepOut.ret true, none⟩

/-- Merge of a received body with previously held bytes in `WAIT_HTTP_REQ`
(lines 1646-1733): realign an overlapping partial response (aborting on a
break in the data), append past the overlap, then parse headers and hand
over to `DECODE_IMAGE`. -/
def waitHttpMerge (env : HttpEnv) (sem : Int) (waiters : Nat) (w : Worker)
    (body : List Nat) (cur : Int) : HttpStepRes :=
  let append0 : Int := (body.length : Int)
  if w.httpReplyOffset ≠ 0 ∧ w.httpReplyOffset ≠ cur
      ∧ (w.httpReplyOffset > cur ∨ cur > w.httpReplyOffset + append0) then
    -- partial response not contiguous with held data: hard abort
    ⟨relW (w.setState EState.DONE), sem - 1, waiters, StepOut.ret true, none⟩
  else
    let src : Int := if w.httpReplyOffset ≠ 0 ∧ w.httpReplyOffset ≠ cur
                     then cur - w.httpReplyOffset else 0
    let append := append0 - src
    let total := cur + append
    if ¬ env.allocOk then
      ⟨relW (w.setState EState.DONE), sem - 1, waiters, StepOut.ret true, none⟩
    else
      let fi0 := w.formattedImage.getD (FormattedImage.mk [] (-1))
      let buffer := fi0.data ++ ((body.drop src.toNat).take append.toNat)
      let w1 := { w with
        requestedSize := w.requestedSize - src,
        requestedOffset := w.requestedOffset + src,
        fileSize := if w.haveAllData then total else total + 1,
        desiredSize := if w.haveAllData then total else w.desiredSize,
        formattedImage := some { fi0 with data := buffer } }
      if ¬ env.updateDataOk then
        -- header parse failed (note: doWork returns false here)
        ⟨relW (w1.setState EState.DONE), sem - 1, waiters, StepOut.ret false, none⟩
      else
        let ld := if w.haveAllData then 0 else w.requestedDiscard
        let w2 := { w1 with
          httpBufferArray := none, httpReplySize := 0, httpReplyOffset := 0,
          loadedDiscard := ld,
          writeToCacheState :=
            if ld = 0 then WriteState.SHOULD_WRITE else w.writeToCacheState }
        ⟨relW (w2.setState EState.DECODE_IMAGE),
          sem - 1, waiters, StepOut.ret false, none⟩

/-- The `WAIT_HTTP_REQ` block of `doWork` (lines 1549-1739). -/
def waitHttpReq (env : HttpEnv) (sem : Int) (waiters : Nat) (w : Worker) : HttpStepRes :=
  if ¬ w.loaded then ⟨w, sem, waiters, StepOut.ret false, none⟩
  else
    let cur : Int := (w.curDataSize : Int)
    if w.requestedSize < 0 then
      -- the GET failed; classify by status
      if w.getStatus = HStatus.notFound
          ∧ (w.fttype = FTType.FTT_MAP_TILE ∨ w.fttype = FTType.FTT_SERVER_BAKE) then
        ⟨relW (w.setState EState.DONE), sem - 1, waiters, StepOut.ret true, none⟩
      else if w.getStatus = HStatus.notFound ∧ w.canUseNET then
        -- roll back to try UDP
        ⟨relW { (w.setState EState.INIT) with canUseHTTP := false, url := "" },
          sem - 1, waiters, StepOut.ret false, none⟩
      else waitHttpFail sem waiters w cur
    else
      match w.httpBufferArray with
      | none =>
          ⟨relW (w.setState EState.DONE), sem - 1, waiters, StepOut.ret true, none⟩
      | some body =>
          if body.length = 0 then
            ⟨relW ({ (w.setState EState.DONE) with httpBufferArray := none }),
              sem - 1, waiters, StepOut.ret true, none⟩
          else if (body.length : Int) ≠ w.requestedSize then
            -- llassert_always(append_size == mRequestedSize)
            ⟨w, sem, waiters, StepOut.assertFail, none⟩
          else waitHttpMerge env sem waiters w body cur

/-- Range computation and dispatch of `SEND_HTTP_REQ` (lines 1468-1547),
entered with `cur` bytes already held; falls through into `WAIT_HTTP_REQ`
after a successful dispatch, exactly as `doWork` does. -/
def sendRange (env : HttpEnv) (sem : Int) (waiters : Nat) (w : Worker) (cur : Nat) :
    HttpStepRes :=
  let rs0 := w.desiredSize - (cur : Int)
  let off0 : Int := (cur : Int)
  let off := if off0 ≠ 0 then off0 - 1 else off0
  let rs := if off0 ≠ 0 then rs0 + 1 else rs0
  let req : HttpReqRec :=
    if env.disableRangeReq then ⟨false, 0, 0⟩
    else ⟨true, off, if off + rs > 20000000 then 0 else rs⟩
  let w1 := { w with requestedSize := rs, requestedOffset := off,
                     requestedDiscard := w.desiredDiscard,
                     loaded := false, getStatus := HStatus.ok }
  if ¬ env.handleValid then
    ⟨relW (resetFormattedData w1), sem - 1, waiters, StepOut.ret true, some req⟩
  else
    let w2 := { (w1.setState EState.WAIT_HTTP_REQ) with httpActive := true }
    let r := waitHttpReq env sem waiters w2
    { r with issued := some req }

/-- The `SEND_HTTP_REQ` block of `doWork` (lines 1431-1547). -/
def sendHttpReq (env : HttpEnv) (sem : Int) (waiters : Nat) (w : Worker) : HttpStepRes :=
  if ¬ w.canUseHTTP then
    ⟨relW w, sem - 1, waiters, StepOut.ret true, none⟩
  else
    match w.formattedImage with
    | some fi =>
        if fi.discardLevel = 0 then
          if fi.data.length > 0 then
            -- we already have all the data, just decode it
            ⟨relW (({ w with loadedDiscard := fi.discardLevel }).setState
                EState.DECODE_IMAGE), sem - 1, waiters, StepOut.ret false, none⟩
          else
            ⟨relW w, sem - 1, waiters, StepOut.ret true, none⟩
        else sendRange env sem waiters w fi.data.length
    | none => sendRange env sem waiters w 0

/-- The modelled fragment of `LLTextureFetchWorker::doWork`: entry guards,
then the four HTTP states; every other state is beyond this model
(`fallthrough`, worker untouched). -/
def doWorkHttp (env : HttpEnv) (sem hw : Int) (waiters : Nat) (w : Worker) : HttpStepRes :=
  if (env.quitting ∨ env.deleteRequested) ∧ w.state.val < EState.DECODE_IMAGE.val then
    ⟨w, sem, waiters, StepOut.ret true, none⟩
  else if w.imagePriority < F_ALMOST_ZERO
      ∧ (w.state = EState.INIT ∨ w.state = EState.LOAD_FROM_NETWORK
         ∨ w.state = EState.LOAD_FROM_SIMULATOR) then
    ⟨w, sem, waiters, StepOut.ret true, none⟩
  else if w.state.val > EState.CACHE_POST.val ∧ ¬ w.canUseNET ∧ ¬ w.canUseHTTP then
    -- nowhere to get data, abort
    ⟨w, sem, waiters, StepOut.ret true, none⟩
  else if env.debugPause then
    ⟨w, sem, waiters, StepOut.ret false, none⟩
  else if w.state = EState.WAIT_HTTP_RESOURCE then
    if waiters ≠ 0 ∨ sem ≥ hw then
      -- park as a waiter (addHttpWaiter)
      ⟨w.setState EState.WAIT_HTTP_RESOURCE2, sem, waiters + 1, StepOut.ret false, none⟩
    else
      -- acquireHttpSemaphore succeeded; commit to SEND_HTTP_REQ and fall through
      sendHttpReq env (sem + 1) waiters
        (Worker.setState { w with httpHasResource := true } EState.SEND_HTTP_REQ)
  else if w.state = EState.WAIT_HTTP_RESOURCE2 then
    ⟨w, sem, waiters, StepOut.ret false, none⟩
  else if w.state = EState.SEND_HTTP_REQ then
    sendHttpReq env sem waiters w
  else if w.state = EState.WAIT_HTTP_REQ then
    waitHttpReq env sem waiters w
  else
    ⟨w, sem, waiters, StepOut.fallthrough, none⟩

/-- `LLTextureFetchWorker::callbackHttpGet` (stats recorder omitted).
`range` is the `(offset, length, full_length)` triple reported by
`response->getRange` (zeros when no Content-Range header was present). -/
def callbackHttpGet (w : Worker) (partialResp success : Bool)
    (body : List Nat) (range : Nat × Nat × Nat) : Worker :=
  if w.state ≠ EState.WAIT_HTTP_REQ then w
  else if w.loaded then w  -- duplicate callback, ignored
  else
    let w' :=
      if success then
        let ds : Int := (body.length : Int)
        if body.length > 0 then
          let w1 := { w with httpBufferArray := some body }
          let w2 :=
            if partialResp then
              if range.1 = 0 ∧ range.2.1 = 0 then
                -- 206 without a usable Content-Range: assume we got what we asked
                { w1 with httpReplySize := ds, httpReplyOffset := w.requestedOffset }
              else
                { w1 with httpReplySize := (range.2.1 : Int),
                          httpReplyOffset := (range.1 : Int) }
            else w1
          let w3 :=
            if ¬ partialResp then
              -- entire asset: drop any partial data we held
              { w2 with haveAllData := true, formattedImage := none }
            else if ds < w.requestedSize then
              { w2 with haveAllData := true }
            else if ds > w.requestedSize then
              { w2 with haveAllData := true, formattedImage := none }
            else w2
          { w3 with requestedSize := ds }
        else
          -- requested data but received none: presumably have all of it
          { w with haveAllData := true, requestedSize := 0 }
      else { w with requestedSize := -1 }
    { w' with loaded := true }

/-- `LLTextureFetchWorker::onCompleted` (metrics, fake-failure debug hook
and traffic logging omitted): clear `mHttpActive`; on a failed status for a
server-bake fetch consult the retry policy and, when it grants a retry,
release the semaphore and fall back to `LOAD_FROM_NETWORK`; otherwise
record the status and classify the response into `callbackHttpGet`. -/
def onCompletedModel (w : Worker) (status : HStatus) (shouldRetry : Bool)
    (body : List Nat) (range : Nat × Nat × Nat) : Worker :=
  let w0 := { w with httpActive := false }
  if ¬ status.isGood ∧ w0.fttype = FTType.FTT_SERVER_BAKE ∧ shouldRetry then
    Worker.setState (relW { w0 with getStatus := status }) EState.LOAD_FROM_NETWORK
  else
    let w1 := { w0 with getStatus := status }
    callbackHttpGet w1 (status = HStatus.partialContent) status.isGood body range

/-- The two states in which a worker may hold the HTTP semaphore. -/
def holdsIn (s : EState) : Bool :=
  s == EState.SEND_HTTP_REQ || s == EState.WAIT_HTTP_REQ

/-- `callbackHttpGet` never touches the worker's state or its semaphore
flag. -/
lemma callbackHttpGet_state_resource (w : Worker) (pa su : Bool)
    (body : List Nat) (range : Nat × Nat × Nat) :
    (callbackHttpGet w pa su body range).state = w.state
    ∧ (callbackHttpGet w pa su body range).httpHasResource = w.httpHasResource := by
  unfold callbackHttpGet
  repeat' split
  all_goals simp [apply_ite Worker.state, apply_ite Worker.httpHasResource]

/-- Every exit of the `WAIT_HTTP_REQ` block leaves the resource flag set
only if the worker is still in `SEND_HTTP_REQ`/`WAIT_HTTP_REQ`: each path
either leaves the worker untouched or releases the semaphore. -/
lemma waitHttpFail_resource_only (sem : Int) (waiters : Nat) (w : Worker) (cur : Int) :
    (waitHttpFail sem waiters w cur).worker.httpHasResource = true →
    holdsIn (waitHttpFail sem waiters w cur).worker.state = true := by
  simp only [waitHttpFail]
  split_ifs <;> intro h <;> exact absurd h Bool.false_ne_true

lemma waitHttpMerge_resource_only (env : HttpEnv) (sem : Int) (waiters : Nat)
    (w : Worker) (body : List Nat) (cur : Int) :
    (waitHttpMerge env sem waiters w body cur).worker.httpHasResource = true →
    holdsIn (waitHttpMerge env sem waiters w body cur).worker.state = true := by
  simp only [waitHttpMerge]
  split_ifs <;> intro h <;> exact absurd h Bool.false_ne_true

lemma waitHttpReq_resource_only (env : HttpEnv) (sem : Int) (waiters : Nat)
    (w : Worker) (hs : w.state = EState.WAIT_HTTP_REQ) :
    (waitHttpReq env sem waiters w).worker.httpHasResource = true →
    holdsIn (waitHttpReq env sem waiters w).worker.state = true := by
  rcases hb : w.httpBufferArray with - | body <;>
  · simp only [waitHttpReq, hb]
    split_ifs <;> intro h <;>
      first
        | (exact show holdsIn w.state = true by simp [hs, holdsIn])
        | (exact absurd h Bool.false_ne_true)
        | (exact waitHttpFail_resource_only _ _ _ _ h)
        | (exact waitHttpMerge_resource_only _ _ _ _ _ _ h)

/-- Every exit of the `SEND_HTTP_REQ` block leaves the resource flag set
only in `SEND_HTTP_REQ`/`WAIT_HTTP_REQ` (all aborts and the transition to
`DECODE_IMAGE` release the semaphore; a successful dispatch holds it in
`WAIT_HTTP_REQ`). -/
lemma sendHttpReq_resource_only (env : HttpEnv) (sem : Int) (waiters : Nat)
    (w : Worker) :
    (sendHttpReq env sem waiters w).worker.httpHasResource = true →
    holdsIn (sendHttpReq env sem waiters w).worker.state = true := by
  have hnl : ∀ (v : Worker), v.loaded = false →
      waitHttpReq env sem waiters v = ⟨v, sem, waiters, StepOut.ret false, none⟩ := by
    intro v hv
    simp [waitHttpReq, hv]
  have hrange : ∀ cur : Nat,
      (sendRange env sem waiters w cur).worker.httpHasResource = true →
      holdsIn (sendRange env sem waiters w cur).worker.state = true := by
    intro cur
    by_cases hh : env.handleValid = true
    · simp only [sendRange, hh]
      rw [if_neg (by simp)]
      rw [hnl _ (by simp [Worker.setState])]
      intro h
      simp [holdsIn, Worker.setState]
    · simp only [sendRange]
      rw [if_pos (by simpa using hh)]
      intro h
      exact absurd h Bool.false_ne_true
  rcases hfi : w.formattedImage with - | fi <;>
  · simp only [sendHttpReq, hfi]
    split_ifs <;> intro h <;>
      first
        | (exact absurd h Bool.false_ne_true)
        | (exact hrange _ h)

/-- C3.  A worker holds the HTTP semaphore only while in `SEND_HTTP_REQ` or
`WAIT_HTTP_REQ`: one `doWork` step over the HTTP states maps a worker
satisfying "resource held → state ∈ {SEND_HTTP_REQ, WAIT_HTTP_REQ}" to a
worker satisfying it again; consequently any step that moves the worker out
of those two states leaves the semaphore released; and the HTTP completion
callback (including its server-bake retry path) preserves the property as
well. -/
theorem http_resource_only_in_send_or_wait (env : HttpEnv) (sem hw : Int)
    (waiters : Nat) (w : Worker) (status : HStatus) (shouldRetry : Bool)
    (body : List Nat) (range : Nat × Nat × Nat)
    (hinv : w.httpHasResource = true → holdsIn w.state = true) :
    ((doWorkHttp env sem hw waiters w).worker.httpHasResource = true →
      holdsIn (doWorkHttp env sem hw waiters w).worker.state = true)
    ∧ (holdsIn w.state = true →
       holdsIn (doWorkHttp env sem hw waiters w).worker.state = false →
       (doWorkHttp env sem hw waiters w).worker.httpHasResource = false)
    ∧ (w.state = EState.WAIT_HTTP_REQ →
       (onCompletedModel w status shouldRetry body range).httpHasResource = true →
       holdsIn (onCompletedModel w status shouldRetry body range).state = true) := by
  have hA : (doWorkHttp env sem hw waiters w).worker.httpHasResource = true →
      holdsIn (doWorkHttp env sem hw waiters w).worker.state = true := by
    simp only [doWorkHttp]
    split_ifs <;> intro h <;>
      first
        | (exact hinv h)
        | (exact sendHttpReq_resource_only _ _ _ _ h)
        | (exact waitHttpReq_resource_only _ _ _ _ (by assumption) h)
        | (exact absurd (hinv h) (by simp [*, holdsIn]))
  refine ⟨hA, ?_, ?_⟩
  · intro _ hout
    cases hres : (doWorkHttp env sem hw waiters w).worker.httpHasResource
    · rfl
    · exact absurd (hA hres) (by simp [hout])
  · intro hwait
    simp only [onCompletedModel]
    split_ifs with hretry
    · intro h
      exact absurd h Bool.false_ne_true
    · intro _
      have hst := (callbackHttpGet_state_resource
        { { w with httpActive := false } with getStatus := status }
        (status = HStatus.partialContent) status.isGood body range).1
      rw [hst]
      simp [hwait, holdsIn]

/-- Environment for concrete HTTP-state runs: no shutdown, no pause, range
requests enabled, valid transport handle, allocation and header parse
succeed. -/
def httpEnvC : HttpEnv :=
  { quitting := false, deleteRequested := false, debugPause := false,
    disableRangeReq := false, handleValid := true, allocOk := true,
    updateDataOk := true }

/-- A worker in `WAIT_HTTP_REQ` holding the semaphore whose map-tile GET
just failed with 404. -/
def httpWorkerC : Worker :=
  { udpWorker with
    state := EState.WAIT_HTTP_REQ
    prevState := EState.SEND_HTTP_REQ
    httpHasResource := true
    loaded := true
    requestedSize := -1
    getStatus := HStatus.notFound
    fttype := FTType.FTT_MAP_TILE }

/-- Witness for C3: on the concrete 404 map-tile completion the step leaves
`WAIT_HTTP_REQ` (to `DONE`) and the semaphore is released. -/
theorem http_resource_only_in_send_or_wait_witness :
    ((doWorkHttp httpEnvC 1 40 0 httpWorkerC).worker.httpHasResource = true →
      holdsIn (doWorkHttp httpEnvC 1 40 0 httpWorkerC).worker.state = true)
    ∧ (doWorkHttp httpEnvC 1 40 0 httpWorkerC).worker.state = EState.DONE
    ∧ (doWorkHttp httpEnvC 1 40 0 httpWorkerC).worker.httpHasResource = false := by
  have h := http_resource_only_in_send_or_wait httpEnvC 1 40 0 httpWorkerC
    HStatus.ok false [] (0, 0, 0) (by decide)
  exact ⟨h.1, by decide, by decide⟩

/-- Under the step-guard side conditions (not quitting, no delete request,
not paused, HTTP usable) a `doWork` step on a worker in `WAIT_HTTP_REQ` is
exactly the `WAIT_HTTP_REQ` block. -/
lemma doWorkHttp_wait (env : HttpEnv) (sem hw : Int) (waiters : Nat) (w : Worker)
    (hq : env.quitting = false) (hd : env.deleteRequested = false)
    (hp : env.debugPause = false) (hs : w.state = EState.WAIT_HTTP_REQ)
    (hc : w.canUseHTTP = true) :
    doWorkHttp env sem hw waiters w = waitHttpReq env sem waiters w := by
  simp [doWorkHttp, hq, hd, hp, hs, hc, EState.val]

/-- A server-bake worker whose GET failed with 404 while UDP fallback is
permitted. -/
def w404bake : Worker :=
  { httpWorkerC with fttype := FTType.FTT_SERVER_BAKE, canUseNET := true }

/-- Counterexample to C4 as stated: a 404 on a server-bake fetch (not a
best-effort map tile — the warning is logged for it) with UDP fallback
permitted terminates the worker at DONE instead of resetting it to INIT. -/
theorem http404_server_bake_terminates :
    w404bake.fttype ≠ FTType.FTT_MAP_TILE
    ∧ w404bake.canUseNET = true
    ∧ (doWorkHttp httpEnvC 1 40 0 w404bake).worker.state = EState.DONE
    ∧ (doWorkHttp httpEnvC 1 40 0 w404bake).worker.state ≠ EState.INIT := by
  refine ⟨by decide, by decide, ?_, ?_⟩ <;> decide

/-- C4 (amended).  On an HTTP 404 completion: a map-tile (best-effort) or
server-bake fetch terminates at DONE; any other fetch type with UDP
fallback permitted clears its URL, disables HTTP for itself and resets to
INIT to restart over UDP. -/
theorem http404_fallback_handling (env : HttpEnv) (sem hw : Int) (waiters : Nat)
    (w : Worker)
    (hq : env.quitting = false) (hd : env.deleteRequested = false)
    (hp : env.debugPause = false) (hs : w.state = EState.WAIT_HTTP_REQ)
    (hc : w.canUseHTTP = true) (hload : w.loaded = true)
    (hneg : w.requestedSize < 0) (hnf : w.getStatus = HStatus.notFound) :
    ((w.fttype = FTType.FTT_MAP_TILE ∨ w.fttype = FTType.FTT_SERVER_BAKE) →
      (doWorkHttp env sem hw waiters w).worker.state = EState.DONE
      ∧ (doWorkHttp env sem hw waiters w).out = StepOut.ret true)
    ∧ (w.fttype ≠ FTType.FTT_MAP_TILE → w.fttype ≠ FTType.FTT_SERVER_BAKE →
       w.canUseNET = true →
      (doWorkHttp env sem hw waiters w).worker.state = EState.INIT
      ∧ (doWorkHttp env sem hw waiters w).worker.url = ""
      ∧ (doWorkHttp env sem hw waiters w).worker.canUseHTTP = false
      ∧ (doWorkHttp env sem hw waiters w).out = StepOut.ret false) := by
  rw [doWorkHttp_wait env sem hw waiters w hq hd hp hs hc]
  constructor
  · intro hft
    simp [waitHttpReq, hload, hneg, hnf, hft, relW, Worker.setState]
  · intro h1 h2 hnet
    simp [waitHttpReq, hload, hneg, hnf, h1, h2, hnet, relW, Worker.setState]

/-- A default-type worker whose GET failed with 404 while UDP fallback is
permitted. -/
def w404udp : Worker :=
  { httpWorkerC with fttype := FTType.FTT_DEFAULT, canUseNET := true }

/-- Witness for C4 (amended): the map-tile 404 terminates at DONE; the
default-type 404 with UDP permitted resets to INIT with HTTP disabled. -/
theorem http404_fallback_handling_witness :
    (doWorkHttp httpEnvC 1 40 0 httpWorkerC).worker.state = EState.DONE
    ∧ (doWorkHttp httpEnvC 1 40 0 w404udp).worker.state = EState.INIT
    ∧ (doWorkHttp httpEnvC 1 40 0 w404udp).worker.url = ""
    ∧ (doWorkHttp httpEnvC 1 40 0 w404udp).worker.canUseHTTP = false := by
  have h1 := http404_fallback_handling httpEnvC 1 40 0 httpWorkerC
    rfl rfl rfl rfl rfl rfl (by decide) rfl
  have h2 := http404_fallback_handling httpEnvC 1 40 0 w404udp
    rfl rfl rfl rfl rfl rfl (by decide) rfl
  have ha := h1.1 (Or.inl rfl)
  have hb := h2.2 (by decide) (by decide) rfl
  exact ⟨ha.1, hb.1, hb.2.1, hb.2.2.1⟩

/-- C5.  An HTTP 416 (range not satisfiable) completion is not treated as an
error: the worker marks the transfer as having all data, and if any bytes
are already buffered it proceeds to `DECODE_IMAGE` with that buffer intact;
only with no buffered bytes at all does it fail to DONE. -/
theorem http416_treated_as_all_data (env : HttpEnv) (sem hw : Int) (waiters : Nat)
    (w : Worker)
    (hq : env.quitting = false) (hd : env.deleteRequested = false)
    (hp : env.debugPause = false) (hs : w.state = EState.WAIT_HTTP_REQ)
    (hc : w.canUseHTTP = true) (hload : w.loaded = true)
    (hneg : w.requestedSize < 0) (hst : w.getStatus = HStatus.rangeNotSat) :
    (0 < w.curDataSize →
      (doWorkHttp env sem hw waiters w).worker.state = EState.DECODE_IMAGE
      ∧ (doWorkHttp env sem hw waiters w).worker.haveAllData = true
      ∧ (doWorkHttp env sem hw waiters w).worker.formattedImage = w.formattedImage
      ∧ (doWorkHttp env sem hw waiters w).out = StepOut.ret false)
    ∧ (w.curDataSize = 0 →
      (doWorkHttp env sem hw waiters w).worker.state = EState.DONE
      ∧ (doWorkHttp env sem hw waiters w).out = StepOut.ret true) := by
  rw [doWorkHttp_wait env sem hw waiters w hq hd hp hs hc]
  constructor
  · intro hcur
    by_cases hft : w.fttype = FTType.FTT_SERVER_BAKE <;>
      simp [waitHttpReq, waitHttpFail, hload, hneg, hst, hft, hcur, relW,
            Worker.setState]
  · intro hcur
    by_cases hft : w.fttype = FTType.FTT_SERVER_BAKE <;>
      simp [waitHttpReq, waitHttpFail, hload, hneg, hst, hft, hcur, relW,
            Worker.setState, resetFormattedData]

/-- A worker in `WAIT_HTTP_REQ` holding 2 buffered bytes whose ranged GET
failed with 416. -/
def w416 : Worker :=
  { httpWorkerC with
    fttype := FTType.FTT_DEFAULT
    getStatus := HStatus.rangeNotSat
    formattedImage := some (FormattedImage.mk [7, 8] 3) }

/-- Witness for C5: the 416 worker with buffered bytes decodes them with
`mHaveAllData` set; the same worker with an empty buffer fails to DONE. -/
theorem http416_treated_as_all_data_witness :
    (doWorkHttp httpEnvC 1 40 0 w416).worker.state = EState.DECODE_IMAGE
    ∧ (doWorkHttp httpEnvC 1 40 0 w416).worker.haveAllData = true
    ∧ (doWorkHttp httpEnvC 1 40 0
        { w416 with formattedImage := none }).worker.state = EState.DONE := by
  have h1 := http416_treated_as_all_data httpEnvC 1 40 0 w416
    rfl rfl rfl rfl rfl rfl (by decide) rfl
  have h2 := http416_treated_as_all_data httpEnvC 1 40 0
    { w416 with formattedImage := none } rfl rfl rfl rfl rfl rfl (by decide) rfl
  have ha := h1.1 (by decide)
  have hb := h2.2 (by decide)
  exact ⟨ha.1, ha.2.1, hb.1⟩

/-- Under the step-guard side conditions a `doWork` step on a worker in
`SEND_HTTP_REQ` is exactly the `SEND_HTTP_REQ` block. -/
lemma doWorkHttp_send (env : HttpEnv) (sem hw : Int) (waiters : Nat) (w : Worker)
    (hq : env.quitting = false) (hd : env.deleteRequested = false)
    (hp : env.debugPause = false) (hs : w.state = EState.SEND_HTTP_REQ)
    (hc : w.canUseHTTP = true) :
    doWorkHttp env sem hw waiters w = sendHttpReq env sem waiters w := by
  simp [doWorkHttp, hq, hd, hp, hs, hc, EState.val]

/-- `SEND_HTTP_REQ` on a worker already holding `cur ≥ 1` bytes at a
non-zero discard issues the byte-range GET `[cur-1, cur-1 + (desired-cur+1))`
and parks in `WAIT_HTTP_REQ` with the adjusted request bookkeeping. -/
lemma sendHttpReq_resume_range (env : HttpEnv) (sem : Int) (waiters : Nat)
    (w : Worker) (pfx : List Nat) (desired : Nat) (dl : Int)
    (hrange : env.disableRangeReq = false) (hvalid : env.handleValid = true)
    (hc : w.canUseHTTP = true)
    (hfi : w.formattedImage = some (FormattedImage.mk pfx dl))
    (hdl : dl ≠ 0) (hcur : 1 ≤ pfx.length)
    (hdes : w.desiredSize = (desired : Int))
    (hcap : (desired : Int) ≤ 20000000) :
    (sendHttpReq env sem waiters w).issued
      = some ⟨true, (pfx.length : Int) - 1, (desired : Int) - pfx.length + 1⟩
    ∧ (sendHttpReq env sem waiters w).worker.state = EState.WAIT_HTTP_REQ
    ∧ (sendHttpReq env sem waiters w).worker.requestedOffset = (pfx.length : Int) - 1
    ∧ (sendHttpReq env sem waiters w).worker.requestedSize
        = (desired : Int) - pfx.length + 1
    ∧ (sendHttpReq env sem waiters w).worker.formattedImage = w.formattedImage
    ∧ (sendHttpReq env sem waiters w).worker.loaded = false := by
  have hne : ((pfx.length : Int)) ≠ 0 := by
    have : (1 : Int) ≤ (pfx.length : Int) := by exact_mod_cast hcur
    omega
  have hcap2 : ¬ (((pfx.length : Int) - 1)
      + ((desired : Int) - (pfx.length : Int) + 1) > 20000000) := by
    omega
  have hnl : ∀ (v : Worker), v.loaded = false →
      waitHttpReq env sem waiters v = ⟨v, sem, waiters, StepOut.ret false, none⟩ := by
    intro v hv
    simp [waitHttpReq, hv]
  simp [sendHttpReq, sendRange, hc, hfi, hdl, hne, hdes, hrange, hvalid, hcap2,
        hnl, Worker.setState]
  intro h
  exfalso
  omega

/-- `waitHttpMerge` on an overlapping (non-aborting) partial response with
allocation and header parse succeeding: the overlap `cur − reply-offset` is
skipped and the remainder appended to the held prefix, handing over to
`DECODE_IMAGE`. -/
lemma waitHttpMerge_overlap (env : HttpEnv) (sem : Int) (waiters : Nat)
    (w : Worker) (body : List Nat) (curI : Int)
    (halloc : env.allocOk = true) (hupd : env.updateDataOk = true)
    (ho1 : w.httpReplyOffset ≠ 0) (ho2 : w.httpReplyOffset ≠ curI)
    (hno : ¬ (w.httpReplyOffset > curI ∨ curI > w.httpReplyOffset + (body.length : Int))) :
    ((waitHttpMerge env sem waiters w body curI).worker.formattedImage.map
        (fun fi => fi.data))
      = some ((w.formattedImage.getD (FormattedImage.mk [] (-1))).data
          ++ ((body.drop (curI - w.httpReplyOffset).toNat).take
               (((body.length : Int) - (curI - w.httpReplyOffset)).toNat)))
    ∧ (waitHttpMerge env sem waiters w body curI).worker.state = EState.DECODE_IMAGE
    ∧ (waitHttpMerge env sem waiters w body curI).out = StepOut.ret false := by
  simp [waitHttpMerge, halloc, hupd, ho1, ho2, hno, relW, Worker.setState]

/-- `waitHttpMerge` aborts to DONE when the partial response's offset lies
beyond the held prefix. -/
lemma waitHttpMerge_break (env : HttpEnv) (sem : Int) (waiters : Nat)
    (w : Worker) (body : List Nat) (curI : Int)
    (ho1 : w.httpReplyOffset ≠ 0) (ho2 : w.httpReplyOffset ≠ curI)
    (hgt : w.httpReplyOffset > curI) :
    (waitHttpMerge env sem waiters w body curI).worker.state = EState.DONE
    ∧ (waitHttpMerge env sem waiters w body curI).out = StepOut.ret true := by
  simp [waitHttpMerge, ho1, ho2, hgt, relW, Worker.setState]

/-- In `WAIT_HTTP_REQ`, a successful completion with a nonempty body of the
asserted size proceeds to the merge. -/
lemma waitHttpReq_to_merge (env : HttpEnv) (sem : Int) (waiters : Nat)
    (w : Worker) (body : List Nat)
    (hload : w.loaded = true) (hnneg : ¬ w.requestedSize < 0)
    (hbody : w.httpBufferArray = some body)
    (hne0 : body.length ≠ 0)
    (heq : (body.length : Int) = w.requestedSize) :
    waitHttpReq env sem waiters w
      = waitHttpMerge env sem waiters w body (w.curDataSize : Int) := by
  simp [waitHttpReq, hload, hnneg, hbody, hne0, heq]

/-- C6 (amended).  A worker already holding `cur ≥ 2` bytes issues in
`SEND_HTTP_REQ` a byte-range GET with offset `cur − 1` and length
`(desired − cur) + 1`; when the 206 reply arrives at offset `cur − 1`
(overlapping the held prefix by one byte), the merge in `WAIT_HTTP_REQ`
skips the overlap (`src_offset = cur − reply_offset`) so the final buffer
holds exactly `desired` bytes — the first `desired` bytes of the asset,
with no duplicated byte at the seam; a reply whose offset lies beyond the
held prefix aborts the request to DONE.  (For `cur = 1` the adjusted offset
is 0 and the code treats the reply as aligned, duplicating the seam byte —
see the counterexample.) -/
theorem http_range_resume_exact (env : HttpEnv) (sem hw : Int) (waiters : Nat)
    (wS wM : Worker) (asset : List Nat) (cur desired : Nat) (dl : Int)
    (hq : env.quitting = false) (hd : env.deleteRequested = false)
    (hp : env.debugPause = false) (hrangeE : env.disableRangeReq = false)
    (hvalid : env.handleValid = true) (halloc : env.allocOk = true)
    (hupd : env.updateDataOk = true)
    (hsS : wS.state = EState.SEND_HTTP_REQ) (hcS : wS.canUseHTTP = true)
    (hfiS : wS.formattedImage = some (FormattedImage.mk (asset.take cur) dl))
    (hdl : dl ≠ 0) (hdesS : wS.desiredSize = (desired : Int))
    (hcap : (desired : Int) ≤ 20000000)
    (hsM : wM.state = EState.WAIT_HTTP_REQ) (hcM : wM.canUseHTTP = true)
    (hloadM : wM.loaded = true)
    (hfiM : wM.formattedImage = some (FormattedImage.mk (asset.take cur) dl))
    (hbodyM : wM.httpBufferArray
        = some ((asset.drop (cur - 1)).take (desired - cur + 1)))
    (hoffM : wM.httpReplyOffset = (cur : Int) - 1)
    (hreqM : wM.requestedSize = (desired : Int) - cur + 1)
    (hcur2 : 2 ≤ cur) (hcd : cur ≤ desired) (hdlen : desired ≤ asset.length) :
    ((doWorkHttp env sem hw waiters wS).issued
        = some ⟨true, (cur : Int) - 1, (desired : Int) - cur + 1⟩
      ∧ (doWorkHttp env sem hw waiters wS).worker.state = EState.WAIT_HTTP_REQ
      ∧ (doWorkHttp env sem hw waiters wS).worker.requestedOffset = (cur : Int) - 1
      ∧ (doWorkHttp env sem hw waiters wS).worker.requestedSize
          = (desired : Int) - cur + 1)
    ∧ ((doWorkHttp env sem hw waiters wM).worker.formattedImage.map (fun fi => fi.data)
        = some (asset.take desired)
      ∧ (doWorkHttp env sem hw waiters wM).worker.state = EState.DECODE_IMAGE)
    ∧ (∀ off : Int, off > (cur : Int) →
        (doWorkHttp env sem hw waiters
            { wM with httpReplyOffset := off }).worker.state = EState.DONE
        ∧ (doWorkHttp env sem hw waiters
            { wM with httpReplyOffset := off }).out = StepOut.ret true) := by
  have hclen : (asset.take cur).length = cur := by
    rw [List.length_take]
    omega
  have hblen : ((asset.drop (cur - 1)).take (desired - cur + 1)).length
      = desired - cur + 1 := by
    rw [List.length_take, List.length_drop]
    omega
  have hnneg : ¬ wM.requestedSize < 0 := by
    rw [hreqM]
    omega
  have hne0 : ((asset.drop (cur - 1)).take (desired - cur + 1)).length ≠ 0 := by
    rw [hblen]
    omega
  have heq : ((((asset.drop (cur - 1)).take (desired - cur + 1)).length : Nat) : Int)
      = wM.requestedSize := by
    rw [hblen, hreqM]
    omega
  have hcurD : wM.curDataSize = cur := by
    simp [Worker.curDataSize, hfiM, hclen]
  refine ⟨?_, ?_, ?_⟩
  · rw [doWorkHttp_send env sem hw waiters wS hq hd hp hsS hcS]
    have h := sendHttpReq_resume_range env sem waiters wS (asset.take cur) desired dl
      hrangeE hvalid hcS hfiS hdl (by omega) hdesS hcap
    rw [hclen] at h
    exact ⟨h.1, h.2.1, h.2.2.1, h.2.2.2.1⟩
  · rw [doWorkHttp_wait env sem hw waiters wM hq hd hp hsM hcM]
    rw [waitHttpReq_to_merge env sem waiters wM _ hloadM hnneg hbodyM hne0 heq]
    have ho1 : wM.httpReplyOffset ≠ 0 := by
      rw [hoffM]
      omega
    have ho2 : wM.httpReplyOffset ≠ (wM.curDataSize : Int) := by
      rw [hoffM, hcurD]
      omega
    have hno : ¬ (wM.httpReplyOffset > (wM.curDataSize : Int)
        ∨ (wM.curDataSize : Int) > wM.httpReplyOffset
            + ((((asset.drop (cur - 1)).take (desired - cur + 1)).length : Nat) : Int)) := by
      rw [hoffM, hcurD, hblen]
      omega
    have hover := waitHttpMerge_overlap env sem waiters wM
      ((asset.drop (cur - 1)).take (desired - cur + 1)) ((wM.curDataSize : Int))
      halloc hupd ho1 ho2 hno
    have hfid : (wM.formattedImage.getD (FormattedImage.mk [] (-1))).data
        = asset.take cur := by
      rw [hfiM]
      rfl
    have hsrc : ((wM.curDataSize : Int) - wM.httpReplyOffset).toNat = 1 := by
      rw [hcurD, hoffM]
      omega
    have happ : (((((asset.drop (cur - 1)).take (desired - cur + 1)).length : Nat) : Int)
        - ((wM.curDataSize : Int) - wM.httpReplyOffset)).toNat = desired - cur := by
      rw [hblen, hcurD, hoffM]
      omega
    rw [hfid, hsrc, happ] at hover
    have hb1 : ((asset.drop (cur - 1)).take (desired - cur + 1)).drop 1
        = (asset.drop cur).take (desired - cur) := by
      rw [List.drop_take, List.drop_drop]
      have e1 : cur - 1 + 1 = cur := by omega
      have e2 : desired - cur + 1 - 1 = desired - cur := by omega
      rw [e1, e2]
    have hlist : asset.take cur
        ++ ((((asset.drop (cur - 1)).take (desired - cur + 1)).drop 1).take (desired - cur))
        = asset.take desired := by
      rw [hb1, List.take_take, Nat.min_self, ← List.take_add]
      have e3 : cur + (desired - cur) = desired := by omega
      rw [e3]
    rw [hlist] at hover
    exact ⟨hover.1, hover.2.1⟩
  · intro off hoffgt
    rw [doWorkHttp_wait env sem hw waiters { wM with httpReplyOffset := off }
      hq hd hp hsM hcM]
    rw [waitHttpReq_to_merge env sem waiters { wM with httpReplyOffset := off } _
      hloadM hnneg hbodyM hne0 heq]
    exact waitHttpMerge_break env sem waiters { wM with httpReplyOffset := off }
      ((asset.drop (cur - 1)).take (desired - cur + 1))
      (({ wM with httpReplyOffset := off } : Worker).curDataSize : Int)
      (show off ≠ 0 by omega)
      (show off ≠ ((({ wM with httpReplyOffset := off } : Worker).curDataSize : Int)) by
        show off ≠ ((wM.curDataSize : Int))
        rw [hcurD]
        omega)
      (show off > ((wM.curDataSize : Int)) by
        rw [hcurD]
        omega)

/-- A worker in `SEND_HTTP_REQ` holding 1 byte of a 3-byte asset. -/
def w6send1 : Worker :=
  { httpWorkerC with
    fttype := FTType.FTT_DEFAULT
    state := EState.SEND_HTTP_REQ
    loaded := false
    requestedSize := 0
    getStatus := HStatus.ok
    desiredSize := 3
    desiredDiscard := 2
    formattedImage := some (FormattedImage.mk [10] 5) }

/-- The worker after its resumed GET (offset 0, length 3) was dispatched. -/
def w6afterSend : Worker := (doWorkHttp httpEnvC 1 40 0 w6send1).worker

/-- The worker after the 206 completion delivering bytes [10,20,30] at
offset 0 (the full requested range). -/
def w6afterCb : Worker :=
  onCompletedModel w6afterSend HStatus.partialContent false [10, 20, 30] (0, 3, 3)

/-- Counterexample to C6 as stated: with `cur_size = 1` the issued range is
`[0, 3)` (offset `cur−1 = 0`, length `desired−cur+1 = 3`), the reply offset
0 overlaps the 1-byte held prefix, yet the merge does NOT skip the overlap
(`mHttpReplyOffset == 0` falls outside the realignment guard): the final
buffer is [10,10,20,30] — 4 bytes for a desired size of 3, with the seam
byte duplicated. -/
theorem http_range_resume_duplicate_at_cur1 :
    (doWorkHttp httpEnvC 1 40 0 w6send1).issued = some ⟨true, 0, 3⟩
    ∧ w6send1.desiredSize = 3
    ∧ ((doWorkHttp httpEnvC 1 40 0 w6afterCb).worker.formattedImage.map
        (fun fi => fi.data)) = some [10, 10, 20, 30]
    ∧ (doWorkHttp httpEnvC 1 40 0 w6afterCb).worker.state = EState.DECODE_IMAGE := by
  refine ⟨?_, ?_, ?_, ?_⟩ <;> decide

/-- A worker in `SEND_HTTP_REQ` holding 2 bytes of the 4-byte asset
[10,20,30,40]. -/
def w6send2 : Worker :=
  { httpWorkerC with
    fttype := FTType.FTT_DEFAULT
    state := EState.SEND_HTTP_REQ
    loaded := false
    requestedSize := 0
    getStatus := HStatus.ok
    desiredSize := 4
    desiredDiscard := 2
    formattedImage := some (FormattedImage.mk [10, 20] 3) }

/-- The same request's `WAIT_HTTP_REQ` worker after its 206 completed with
bytes [20,30,40] at reply offset 1. -/
def w6merge : Worker :=
  { httpWorkerC with
    fttype := FTType.FTT_DEFAULT
    getStatus := HStatus.partialContent
    requestedSize := 3
    requestedOffset := 1
    desiredSize := 4
    httpReplyOffset := 1
    httpReplySize := 3
    httpBufferArray := some [20, 30, 40]
    haveAllData := false
    formattedImage := some (FormattedImage.mk [10, 20] 3) }

/-- Witness for C6 (amended) at `cur = 2`, `desired = 4`,
asset [10,20,30,40]: the issued range is `[1, 1+3)`, the merge produces
exactly [10,20,30,40], and a reply offset of 5 aborts to DONE. -/
theorem http_range_resume_exact_witness :
    (doWorkHttp httpEnvC 1 40 0 w6send2).issued = some ⟨true, 1, 3⟩
    ∧ ((doWorkHttp httpEnvC 1 40 0 w6merge).worker.formattedImage.map
        (fun fi => fi.data)) = some [10, 20, 30, 40]
    ∧ (doWorkHttp httpEnvC 1 40 0
        { w6merge with httpReplyOffset := 5 }).worker.state = EState.DONE := by
  have h := http_range_resume_exact httpEnvC 1 40 0 w6send2 w6merge
    [10, 20, 30, 40] 2 4 3 rfl rfl rfl rfl rfl rfl rfl rfl rfl (by decide)
    (by decide) (by decide) (by decide) rfl rfl rfl (by decide) (by decide)
    (by decide) (by decide) (by decide) (by decide) (by decide)
  refine ⟨?_, ?_, (h.2.2 5 (by decide)).1⟩
  · rw [h.1.1]
    decide
  · have hm := h.2.1.1
    rw [hm]
    decide

/-! ## createRequest (C9)

Embedding of `LLTextureFetch::createRequest` (lines 2299-2416).  External
collaborators appear as parameters: `calc` is
`LLImageJ2C::calcDataSizeJ2C(w, h, c, discard)`, `maxSize` is
`MAX_IMAGE_DATA_SIZE` and `maxDiscard` is `MAX_DISCARD_LEVEL` (constants of
the image library), and `extenNonJ2C` is the outcome of
`!url.empty() && !exten.empty() && getCodecFromExtension(exten) != IMG_CODEC_J2C`.
`wasAborted`/`hasWork` are the `LLWorkerClass` base-class flags of the
existing worker. -/

/-- `LLTextureFetchWorker::setImagePriority`: update only when the change
exceeds the 5% hysteresis band or the worker is DONE (the work-priority
recomputation is scheduler state, not data). -/
def setImagePriority (w : Worker) (priority : ℚ) : Worker :=
  if |priority - w.imagePriority| > w.imagePriority * (mkRat 5 100)
      ∨ w.state = EState.DONE
  then { w with imagePriority := priority }
  else w

/-- `LLTextureFetchWorker::setDesiredDiscard` (work scheduling calls
omitted): record the new demand, clamp the size to at least `1 << 12`, and
re-arm a DONE worker (or a prioritized INIT worker) back to INIT. -/
def setDesiredDiscard (w : Worker) (discard size : Int) (hasWork : Bool) : Worker :=
  let pr :=
    if w.desiredDiscard ≠ discard then
      if ¬ hasWork then false else decide (w.desiredDiscard < discard)
    else decide (size > w.desiredSize)
  let w1 :=
    if w.desiredDiscard ≠ discard then
      { w with desiredDiscard := discard, desiredSize := size }
    else if size > w.desiredSize then { w with desiredSize := size }
    else w
  let w2 := { w1 with desiredSize := max w1.desiredSize 4096 }
  if (pr ∧ w2.state = EState.INIT) ∨ w2.state = EState.DONE
  then w2.setState EState.INIT else w2

/-- Desired byte size and clamped discard from the argument block at lines
2328-2370. -/
def computeDesired (calcSize : Int → Int → Int → Int → Int)
    (maxSize maxDiscard : Int) (f_type : FTType) (extenNonJ2C : Bool)
    (wpx hpx cpx desired_discard : Int) : Int × Int :=
  if f_type = FTType.FTT_SERVER_BAKE ∧ extenNonJ2C then (maxSize, 0)
  else if extenNonJ2C then (maxSize, 0)
  else if desired_discard = 0 then (calcSize wpx hpx cpx desired_discard * 2, desired_discard)
  else if wpx * hpx * cpx > 0 then (calcSize wpx hpx cpx desired_discard, desired_discard)
  else (calcSize 2048 2048 4 0 * 2,
        if desired_discard ≥ maxDiscard then maxDiscard - 1 else desired_discard)

/-- A worker as the constructor leaves it (scratch fields zeroed, HTTP
allowed, UDP allowed iff no explicit URL), after the constructor's
`setDesiredDiscard(discard, size)`. -/
def newTFWorker (f_type : FTType) (url : String) (id host : Nat)
    (priority : ℚ) (discard size : Int) : Worker :=
  setDesiredDiscard
    { id := id, host := host, fttype := f_type, state := EState.INIT,
      prevState := EState.INIT, url := url, imagePriority := priority,
      canUseHTTP := true, canUseNET := url = "", httpHasResource := false,
      formattedImage := none, desiredDiscard := -1, desiredSize := 4096,
      requestedDiscard := -1, requestedSize := 0, requestedOffset := 0,
      loadedDiscard := -1, decodedDiscard := -1, fileSize := 0,
      haveAllData := false, loaded := false, httpBufferArray := none,
      httpReplySize := 0, httpReplyOffset := 0, getStatus := HStatus.ok,
      httpActive := false, writeToCacheState := WriteState.CAN_WRITE,
      sentRequest := SentState.UNSENT, packets := [], totalPackets := 0,
      firstPacket := 0, lastPacket := -1, imageCodec := 0, needsAux := false,
      activeCount := 0 }
    discard size false

/-- Result of `createRequest`: the returned bool, the live worker for the
id afterwards, whether a stale worker bound to another host was removed,
and whether a fresh worker was created. -/
structure CRRes where
  ok : Bool
  worker : Option Worker
  removedStale : Bool
  createdNew : Bool
  deriving DecidableEq, Repr

/-- `LLTextureFetch::createRequest`. -/
def createRequest (calcSize : Int → Int → Int → Int → Int) (maxSize maxDiscard : Int)
    (fetcherLocked debugPause : Bool) (existing : Option Worker)
    (wasAborted hasWork : Bool) (f_type : FTType) (url : String)
    (extenNonJ2C : Bool) (id host : Nat) (priority : ℚ)
    (wpx hpx cpx desired_discard : Int) (needs_aux can_use_http : Bool) : CRRes :=
  if fetcherLocked then ⟨false, existing, false, false⟩
  else if debugPause then ⟨false, existing, false, false⟩
  else
    match existing with
    | some worker =>
        if worker.host ≠ host then
          -- multiple hosts: log, removeRequest(worker, true), fail
          ⟨false, none, true, false⟩
        else
          let ds := computeDesired calcSize maxSize maxDiscard f_type extenNonJ2C
            wpx hpx cpx desired_discard
          if wasAborted then
            -- need to wait for the previous aborted request to complete
            ⟨false, some worker, false, false⟩
          else
            let w1 := { worker with activeCount := worker.activeCount + 1,
                                    needsAux := needs_aux }
            let w2 := setImagePriority w1 priority
            let w3 := setDesiredDiscard w2 ds.2 ds.1 hasWork
            let w4 := { w3 with canUseHTTP := can_use_http }
            let w5 := if ¬ hasWork then w4.setState EState.INIT else w4
            ⟨true, some w5, false, false⟩
    | none =>
        let ds := computeDesired calcSize maxSize maxDiscard f_type extenNonJ2C
          wpx hpx cpx desired_discard
        let w := newTFWorker f_type url id host priority ds.2 ds.1
        let w1 := { w with activeCount := w.activeCount + 1,
                           needsAux := needs_aux, canUseHTTP := can_use_http }
        ⟨true, some w1, false, true⟩

/-- `setImagePriority` touches only the priority field, and does adopt the
new priority when the change exceeds the 5% band. -/
lemma setImagePriority_invariants (w : Worker) (p : ℚ) :
    (setImagePriority w p).id = w.id
    ∧ (setImagePriority w p).host = w.host
    ∧ (setImagePriority w p).needsAux = w.needsAux
    ∧ (setImagePriority w p).state = w.state
    ∧ (setImagePriority w p).canUseHTTP = w.canUseHTTP
    ∧ (setImagePriority w p).desiredDiscard = w.desiredDiscard
    ∧ (setImagePriority w p).desiredSize = w.desiredSize
    ∧ (setImagePriority w p).requestedDiscard = w.requestedDiscard
    ∧ (setImagePriority w p).requestedSize = w.requestedSize
    ∧ (|p - w.imagePriority| > w.imagePriority * (mkRat 5 100) →
        (setImagePriority w p).imagePriority = p) := by
  unfold setImagePriority
  split <;> simp_all

/-- `setDesiredDiscard` updates only the demand fields (and re-arms a DONE
worker): identity, priority and the in-flight request bookkeeping are
untouched, and the state is untouched for a worker that is neither at INIT
nor DONE. -/
lemma setDesiredDiscard_invariants (w : Worker) (d s : Int) (hwk : Bool) :
    (setDesiredDiscard w d s hwk).id = w.id
    ∧ (setDesiredDiscard w d s hwk).host = w.host
    ∧ (setDesiredDiscard w d s hwk).needsAux = w.needsAux
    ∧ (setDesiredDiscard w d s hwk).imagePriority = w.imagePriority
    ∧ (setDesiredDiscard w d s hwk).canUseHTTP = w.canUseHTTP
    ∧ (setDesiredDiscard w d s hwk).requestedDiscard = w.requestedDiscard
    ∧ (setDesiredDiscard w d s hwk).requestedSize = w.requestedSize
    ∧ (w.state ≠ EState.INIT → w.state ≠ EState.DONE →
        (setDesiredDiscard w d s hwk).state = w.state) := by
  unfold setDesiredDiscard
  repeat' split
  all_goals simp_all [Worker.setState]
  all_goals repeat' split
  all_goals simp_all

/-- `setDesiredDiscard` always records the new desired discard; the desired
size is overwritten by the new value when the discard changed, and otherwise
only grown to it (keep-the-max merge), clamped to at least `1 << 12` either
way. -/
lemma setDesiredDiscard_demand (w : Worker) (d s : Int) (hwk : Bool) :
    (setDesiredDiscard w d s hwk).desiredDiscard = d
    ∧ (setDesiredDiscard w d s hwk).desiredSize
      = (if w.desiredDiscard ≠ d then max s 4096
         else if s > w.desiredSize then max s 4096
         else max w.desiredSize 4096) := by
  unfold setDesiredDiscard
  repeat' split
  all_goals simp_all [Worker.setState]
  all_goals repeat' split
  all_goals simp_all

/-- `setImagePriority` keeps the old priority when the change lies inside the
5% hysteresis band and the worker is not DONE. -/
lemma setImagePriority_keep (w : Worker) (p : ℚ)
    (h1 : ¬ |p - w.imagePriority| > w.imagePriority * (mkRat 5 100))
    (h2 : w.state ≠ EState.DONE) :
    (setImagePriority w p).imagePriority = w.imagePriority := by
  unfold setImagePriority
  rw [if_neg (not_or.mpr ⟨h1, h2⟩)]

/-- A live worker bound to host 9, mid-fetch. -/
def crWorker : Worker :=
  { udpWorker with
    host := 9
    state := EState.WAIT_HTTP_REQ
    requestedDiscard := 2
    requestedSize := 5000 }

/-- A fixed stand-in for `LLImageJ2C::calcDataSizeJ2C`. -/
def calcStub : Int → Int → Int → Int → Int := fun _ _ _ _ => 1000

/-- A live worker bound to host 9 that already demands discard 3 at a
desired size larger than the size a re-request would compute. -/
def crWorkerSz : Worker :=
  { udpWorker with
    host := 9
    state := EState.WAIT_HTTP_REQ
    desiredDiscard := 3
    desiredSize := 10000 }

/-- Counterexample to C9 as stated, in three parts.  (a) `createRequest` for
an id whose live worker is bound to the same host returns FALSE — with no
in-place update — when the worker's previous pass was aborted and has not
yet completed, a reject case the claim does not allow (it admits only a
locked/paused fetcher or a different host).  (b) The priority is NOT always
updated in place: re-requesting `crWorker` (priority 100, not DONE) at
priority 101 — a change inside the 5% hysteresis band — leaves the worker's
priority at 100.  (c) The desired size is NOT always updated in place:
re-requesting `crWorkerSz` (desired discard 3 at desired size 10000) with
the same desired discard 3, for which the computed desired size is 2000,
leaves the desired size at 10000 — the size update is a keep-the-max
merge. -/
theorem createRequest_aborted_rejected :
    ((createRequest calcStub 5000000 5 false false (some crWorker) true true
      FTType.FTT_DEFAULT "" false 1 9 100 0 0 0 2 false true).ok = false
    ∧ (createRequest calcStub 5000000 5 false false (some crWorker) true true
        FTType.FTT_DEFAULT "" false 1 9 100 0 0 0 2 false true).worker
      = some crWorker
    ∧ crWorker.host = 9)
    ∧ (createRequest calcStub 5000000 5 false false (some crWorker) false true
        FTType.FTT_DEFAULT "" false 1 9 101 0 0 0 2 false true).worker.map
        (fun u => u.imagePriority) = some 100
    ∧ (createRequest calcStub 5000000 5 false false (some crWorkerSz) false true
        FTType.FTT_DEFAULT "" false 1 9 100 0 0 0 3 false true).worker.map
        (fun u => u.desiredSize) = some 10000 := by
  refine ⟨⟨rfl, rfl, rfl⟩, ?_, ?_⟩
  · show some ((setDesiredDiscard (setImagePriority
        { crWorker with activeCount := crWorker.activeCount + 1,
                        needsAux := false }
        101) 2 2000 true).imagePriority) = some 100
    rw [(setDesiredDiscard_invariants _ 2 2000 true).2.2.2.1,
        setImagePriority_keep _ 101 (by norm_num [crWorker, udpWorker])
          (by decide)]
    rfl
  · show some ((setDesiredDiscard (setImagePriority
        { crWorkerSz with activeCount := crWorkerSz.activeCount + 1,
                          needsAux := false }
        100) 3 2000 true).desiredSize) = some 10000
    rw [(setDesiredDiscard_demand _ 3 2000 true).2,
        (setImagePriority_invariants _ 100).2.2.2.2.2.1,
        (setImagePriority_invariants _ 100).2.2.2.2.2.2.1]
    decide

/-- C9 (amended).  `createRequest` for an id with a live worker bound to the
same host creates no second worker: unless the previous pass was aborted
(in which case it returns false without updating), it updates the existing
worker in place and returns true — the aux flag and HTTP-eligibility are
overwritten, the priority is adopted when the change exceeds the 5%
hysteresis band and kept when it does not (on a worker that is not DONE),
the desired discard is set to the newly computed value, and the desired
size is overwritten by the newly computed value when the desired discard
changed but otherwise only grown to it (keep-the-max merge), clamped to at
least `1 << 12` either way — while the in-flight request bookkeeping
(`mRequestedDiscard`/`mRequestedSize`) and a mid-pipeline state stay
untouched; it returns false when the fetcher is locked or paused; and for a
worker bound to a different host it removes the stale worker and returns
false. -/
theorem createRequest_idempotent_update
    (calcSize : Int → Int → Int → Int → Int) (maxSize maxDiscard : Int)
    (fetcherLocked debugPause wasAborted hasWork : Bool)
    (existing : Option Worker) (worker : Worker) (f_type : FTType)
    (url : String) (extenNonJ2C : Bool) (id host : Nat) (priority : ℚ)
    (wpx hpx cpx desired_discard : Int) (needs_aux can_use_http : Bool) :
    (fetcherLocked = true →
      createRequest calcSize maxSize maxDiscard fetcherLocked debugPause existing
        wasAborted hasWork f_type url extenNonJ2C id host priority
        wpx hpx cpx desired_discard needs_aux can_use_http
      = ⟨false, existing, false, false⟩)
    ∧ (fetcherLocked = false → debugPause = true →
      createRequest calcSize maxSize maxDiscard fetcherLocked debugPause existing
        wasAborted hasWork f_type url extenNonJ2C id host priority
        wpx hpx cpx desired_discard needs_aux can_use_http
      = ⟨false, existing, false, false⟩)
    ∧ (fetcherLocked = false → debugPause = false → existing = some worker →
       worker.host ≠ host →
      createRequest calcSize maxSize maxDiscard fetcherLocked debugPause existing
        wasAborted hasWork f_type url extenNonJ2C id host priority
        wpx hpx cpx desired_discard needs_aux can_use_http
      = ⟨false, none, true, false⟩)
    ∧ (fetcherLocked = false → debugPause = false → existing = some worker →
       worker.host = host → wasAborted = false →
      (createRequest calcSize maxSize maxDiscard fetcherLocked debugPause existing
        wasAborted hasWork f_type url extenNonJ2C id host priority
        wpx hpx cpx desired_discard needs_aux can_use_http).ok = true
      ∧ (createRequest calcSize maxSize maxDiscard fetcherLocked debugPause existing
          wasAborted hasWork f_type url extenNonJ2C id host priority
          wpx hpx cpx desired_discard needs_aux can_use_http).createdNew = false
      ∧ ∀ u, (createRequest calcSize maxSize maxDiscard fetcherLocked debugPause
            existing wasAborted hasWork f_type url extenNonJ2C id host priority
            wpx hpx cpx desired_discard needs_aux can_use_http).worker = some u →
          u.id = worker.id ∧ u.host = worker.host
          ∧ u.needsAux = needs_aux ∧ u.canUseHTTP = can_use_http
          ∧ u.requestedDiscard = worker.requestedDiscard
          ∧ u.requestedSize = worker.requestedSize
          ∧ (hasWork = true → worker.state ≠ EState.INIT →
             worker.state ≠ EState.DONE → u.state = worker.state)
          ∧ (|priority - worker.imagePriority|
                > worker.imagePriority * (mkRat 5 100) →
             u.imagePriority = priority)
          ∧ (¬ |priority - worker.imagePriority|
                > worker.imagePriority * (mkRat 5 100) →
             worker.state ≠ EState.DONE →
             u.imagePriority = worker.imagePriority)
          ∧ u.desiredDiscard = (computeDesired calcSize maxSize maxDiscard
              f_type extenNonJ2C wpx hpx cpx desired_discard).2
          ∧ u.desiredSize =
              (if worker.desiredDiscard ≠ (computeDesired calcSize maxSize
                  maxDiscard f_type extenNonJ2C wpx hpx cpx desired_discard).2
               then max (computeDesired calcSize maxSize maxDiscard f_type
                  extenNonJ2C wpx hpx cpx desired_discard).1 4096
               else if (computeDesired calcSize maxSize maxDiscard f_type
                  extenNonJ2C wpx hpx cpx desired_discard).1 > worker.desiredSize
               then max (computeDesired calcSize maxSize maxDiscard f_type
                  extenNonJ2C wpx hpx cpx desired_discard).1 4096
               else max worker.desiredSize 4096)) := by
  refine ⟨?_, ?_, ?_, ?_⟩
  · intro hl
    simp [createRequest, hl]
  · intro hl hd
    simp [createRequest, hl, hd]
  · intro hl hd hex hh
    simp [createRequest, hl, hd, hex, hh]
  · intro hl hd hex hh hab
    subst hex
    subst hh
    have hip := setImagePriority_invariants
      { worker with activeCount := worker.activeCount + 1, needsAux := needs_aux }
      priority
    have hdd := setDesiredDiscard_invariants
      (setImagePriority
        { worker with activeCount := worker.activeCount + 1, needsAux := needs_aux }
        priority)
      (computeDesired calcSize maxSize maxDiscard f_type extenNonJ2C
        wpx hpx cpx desired_discard).2
      (computeDesired calcSize maxSize maxDiscard f_type extenNonJ2C
        wpx hpx cpx desired_discard).1 hasWork
    have hdm := setDesiredDiscard_demand
      (setImagePriority
        { worker with activeCount := worker.activeCount + 1, needsAux := needs_aux }
        priority)
      (computeDesired calcSize maxSize maxDiscard f_type extenNonJ2C
        wpx hpx cpx desired_discard).2
      (computeDesired calcSize maxSize maxDiscard f_type extenNonJ2C
        wpx hpx cpx desired_discard).1 hasWork
    cases hwk : hasWork with
    | true =>
        refine ⟨by simp [createRequest, hl, hd, hab, hwk],
                by simp [createRequest, hl, hd, hab, hwk], ?_⟩
        intro u hu
        simp only [createRequest, hl, hd, hab, hwk] at hu
        simp at hu
        subst hu
        rw [hwk] at hdd
        rw [hwk] at hdm
        refine ⟨?_, ?_, ?_, by simp, ?_, ?_, ?_, ?_, ?_, ?_, ?_⟩
        · simp only [Worker.setState]
          rw [hdd.1, hip.1]
        · simp only [Worker.setState]
          rw [hdd.2.1, hip.2.1]
        · simp only [Worker.setState]
          rw [hdd.2.2.1, hip.2.2.1]
        · simp only [Worker.setState]
          rw [hdd.2.2.2.2.2.1, hip.2.2.2.2.2.2.2.1]
        · simp only [Worker.setState]
          rw [hdd.2.2.2.2.2.2.1, hip.2.2.2.2.2.2.2.2.1]
        · intro _ hsi hsd
          simp only [Worker.setState]
          rw [hdd.2.2.2.2.2.2.2 (by rw [hip.2.2.2.1]; exact hsi)
                (by rw [hip.2.2.2.1]; exact hsd), hip.2.2.2.1]
        · intro hpr
          simp only [Worker.setState]
          rw [hdd.2.2.2.1]
          exact hip.2.2.2.2.2.2.2.2.2 hpr
        · intro hnp hnd
          simp only [Worker.setState]
          rw [hdd.2.2.2.1]
          exact setImagePriority_keep _ priority hnp hnd
        · simp only [Worker.setState]
          exact hdm.1
        · simp only [Worker.setState]
          rw [hdm.2, hip.2.2.2.2.2.1, hip.2.2.2.2.2.2.1]
    | false =>
        refine ⟨by simp [createRequest, hl, hd, hab, hwk],
                by simp [createRequest, hl, hd, hab, hwk], ?_⟩
        intro u hu
        simp only [createRequest, hl, hd, hab, hwk] at hu
        simp at hu
        subst hu
        rw [hwk] at hdd
        rw [hwk] at hdm
        refine ⟨?_, ?_, ?_, by simp [Worker.setState], ?_, ?_, ?_, ?_, ?_, ?_, ?_⟩
        · simp only [Worker.setState]
          rw [hdd.1, hip.1]
        · simp only [Worker.setState]
          rw [hdd.2.1, hip.2.1]
        · simp only [Worker.setState]
          rw [hdd.2.2.1, hip.2.2.1]
        · simp only [Worker.setState]
          rw [hdd.2.2.2.2.2.1, hip.2.2.2.2.2.2.2.1]
        · simp only [Worker.setState]
          rw [hdd.2.2.2.2.2.2.1, hip.2.2.2.2.2.2.2.2.1]
        · intro hcontra
          exact absurd hcontra (by simp [hwk])
        · intro hpr
          simp only [Worker.setState]
          rw [hdd.2.2.2.1]
          exact hip.2.2.2.2.2.2.2.2.2 hpr
        · intro hnp hnd
          simp only [Worker.setState]
          rw [hdd.2.2.2.1]
          exact setImagePriority_keep _ priority hnp hnd
        · simp only [Worker.setState]
          exact hdm.1
        · simp only [Worker.setState]
          rw [hdm.2, hip.2.2.2.2.2.1, hip.2.2.2.2.2.2.1]

/-- Witness for C9 (amended): re-requesting id 1 (worker live on host 9,
in-flight at `WAIT_HTTP_REQ` with requested discard 2) with a coarser
desired discard 3 and priority 200 succeeds without creating a second
worker, keeps the in-flight request bookkeeping, adopts the new priority,
records the new desired discard 3 and the clamped computed desired size
4096; the same call aimed at host 5 removes the stale worker and fails. -/
theorem createRequest_idempotent_update_witness :
    (createRequest calcStub 5000000 5 false false (some crWorker) false true
      FTType.FTT_DEFAULT "" false 1 9 200 0 0 0 3 true true).ok = true
    ∧ (createRequest calcStub 5000000 5 false false (some crWorker) false true
        FTType.FTT_DEFAULT "" false 1 9 200 0 0 0 3 true true).createdNew = false
    ∧ (∀ u, (createRequest calcStub 5000000 5 false false (some crWorker) false true
        FTType.FTT_DEFAULT "" false 1 9 200 0 0 0 3 true true).worker = some u →
        u.requestedDiscard = crWorker.requestedDiscard
        ∧ u.state = crWorker.state ∧ u.imagePriority = 200
        ∧ u.desiredDiscard = 3 ∧ u.desiredSize = 4096)
    ∧ (createRequest calcStub 5000000 5 false false (some crWorker) false true
        FTType.FTT_DEFAULT "" false 1 5 200 0 0 0 3 true true)
      = ⟨false, none, true, false⟩ := by
  have h := createRequest_idempotent_update calcStub 5000000 5 false false false true
    (some crWorker) crWorker FTType.FTT_DEFAULT "" false 1 9 200 0 0 0 3 true true
  have h5 := createRequest_idempotent_update calcStub 5000000 5 false false false true
    (some crWorker) crWorker FTType.FTT_DEFAULT "" false 1 5 200 0 0 0 3 true true
  have h4 := h.2.2.2 rfl rfl rfl rfl rfl
  refine ⟨h4.1, h4.2.1, ?_, h5.2.2.1 rfl rfl rfl (by decide)⟩
  intro u hu
  have hf := h4.2.2 u hu
  refine ⟨hf.2.2.2.2.1, ?_, ?_, ?_, ?_⟩
  · exact hf.2.2.2.2.2.2.1 rfl (by decide) (by decide)
  · exact hf.2.2.2.2.2.2.2.1 (by norm_num [crWorker, udpWorker])
  · rw [hf.2.2.2.2.2.2.2.2.2.1]
    decide
  · rw [hf.2.2.2.2.2.2.2.2.2.2]
    decide
